import Mathlib

/-!
Shallow embedding of the ayude asset importer and renderer
(src/import_gltf.rs, src/lib.rs, src/graphics/mod.rs, src/bin/ayude.rs).

Modelling conventions:
* `f32` matrices are idealised as exact rationals; a 4x4 matrix is a
  function `Fin 4 → Fin 4 → ℚ` and `Mat4.mul` is the glam `Mat4`
  product (`mul_mat4` / `*`).
* Panics and divergence are modelled by `Option`: a result of `none`
  means the Rust code panics (an `unwrap`/`expect`/out-of-bounds index)
  or does not terminate; `some r` means the code returns `r`.
* Fallible code returns `Except ImportGltfError`.
* GPU resources (`wgpu::Texture`, `Rc<MeshStorage>`) are modelled by an
  allocation counter: each `create_texture` / `create_mesh` call takes a
  fresh id from `Gfx.nextId`, so identity equality of built resources is
  equality of ids.
* External collaborators (the filesystem and the `image` crate decoder)
  are oracles passed in as `Ext`; the `gltf` crate's accessor objects are
  embedded as `G*Obj` records carrying exactly the fields the importer
  reads.
* Strings are `List Char` (the byte/char index distinction does not
  matter for the slices the code takes, which all sit between ASCII
  delimiter characters).
-/

namespace Ayude

/-- A 4x4 matrix of rationals, standing for `glam::Mat4`. -/
def Mat4 : Type := Fin 4 → Fin 4 → ℚ

instance : DecidableEq Mat4 :=
  inferInstanceAs (DecidableEq (Fin 4 → Fin 4 → ℚ))

/-- Matrix product, mirroring `glam::Mat4::mul_mat4` (row i, column j). -/
def Mat4.mul (A B : Mat4) : Mat4 := fun i j =>
  A i 0 * B 0 j + A i 1 * B 1 j + A i 2 * B 2 j + A i 3 * B 3 j

instance : Mul Mat4 := ⟨Mat4.mul⟩

/-- The identity matrix; the importer assigns it as the Scene's root
transform (`Mat4::from_cols_array_2d` of the identity columns). -/
def Mat4.identity : Mat4 := fun i j => if i = j then 1 else 0

/-- Diagonal matrix helper, used only to build concrete test inputs. -/
def Mat4.diag (a b c d : ℚ) : Mat4 := fun i j =>
  if i = j then (if i.val = 0 then a else if i.val = 1 then b else if i.val = 2 then c else d)
  else 0

/-- First index of a character in a string, mirroring `str::find`. -/
def strFind (s : List Char) (c : Char) : Option Nat :=
  match s with
  | [] => none
  | a :: rest => if a = c then some 0 else (strFind rest c).map (· + 1)

/-- Last index of a character in a string, mirroring `str::rfind`. -/
def strRfind (s : List Char) (c : Char) : Option Nat :=
  match s with
  | [] => none
  | a :: rest =>
    match strRfind rest c with
    | some i => some (i + 1)
    | none => if a = c then some 0 else none

/-- Short-circuiting map, mirroring `Iterator::collect::<Result<_, _>>()`. -/
def mapExcept {α β ε : Type} (f : α → Except ε β) : List α → Except ε (List β)
  | [] => .ok []
  | a :: rest =>
    match f a with
    | .error e => .error e
    | .ok b =>
      match mapExcept f rest with
      | .error e => .error e
      | .ok bs => .ok (b :: bs)

/-- Value of one base64 symbol in the standard alphabet. -/
def b64Val (c : Char) : Option Nat :=
  if 'A' ≤ c ∧ c ≤ 'Z' then some (c.toNat - 65)
  else if 'a' ≤ c ∧ c ≤ 'z' then some (c.toNat - 97 + 26)
  else if '0' ≤ c ∧ c ≤ '9' then some (c.toNat - 48 + 52)
  else if c = '+' then some 62
  else if c = '/' then some 63
  else none

/-- Error type of `base64::decode` (the `base64` crate). -/
inductive DecodeError : Type
  | invalidByte (index : Nat) (byte : Nat)
  | invalidLength
  | invalidLastSymbol (index : Nat) (byte : Nat)
deriving DecidableEq

/-- Standard-alphabet, padded base64 decoding, modelling
`base64::decode`: input is consumed in blocks of four symbols, `=` is
accepted only as trailing padding, any other non-alphabet byte or a
length not divisible by four is an error. -/
def base64decode : List Char → Except DecodeError (List Nat)
  | [] => .ok []
  | c1 :: c2 :: c3 :: c4 :: rest =>
    match b64Val c1, b64Val c2 with
    | some v1, some v2 =>
      if c3 = '=' then
        if c4 = '=' ∧ rest = [] then
          if v2 % 16 = 0 then .ok [v1 * 4 + v2 / 16]
          else .error (.invalidLastSymbol 1 c2.toNat)
        else .error .invalidLength
      else
        match b64Val c3 with
        | some v3 =>
          if c4 = '=' then
            if rest = [] then
              if v3 % 4 = 0 then .ok [v1 * 4 + v2 / 16, v2 % 16 * 16 + v3 / 4]
              else .error (.invalidLastSymbol 2 c3.toNat)
            else .error .invalidLength
          else
            match b64Val c4 with
            | some v4 =>
              (base64decode rest).map
                (fun bs => (v1 * 4 + v2 / 16) :: (v2 % 16 * 16 + v3 / 4) :: (v3 % 4 * 64 + v4) :: bs)
            | none => .error (.invalidByte 3 c4.toNat)
        | none => .error (.invalidByte 2 c3.toNat)
    | none, _ => .error (.invalidByte 0 c1.toNat)
    | _, none => .error (.invalidByte 1 c2.toNat)
  | _ => .error .invalidLength

/-- Opaque stand-in for `std::io::Error`. -/
inductive IOErr : Type
  | mk
deriving DecidableEq

/-- Opaque stand-in for `gltf::Error`. -/
inductive GltfError : Type
  | mk
deriving DecidableEq

/-- Opaque stand-in for `image::ImageError`. -/
inductive ImageError : Type
  | mk
deriving DecidableEq

/-- The `wgpu::TextureFormat` values the importer constructs (it only
ever builds `Rgba8Uint`). -/
inductive TexFormat : Type
  | rgba8Uint
deriving DecidableEq

/-- Mirror of `ImportGltfError` (src/import_gltf.rs), variant for
variant with like payloads. -/
inductive ImportGltfError : Type
  | ioError (e : IOErr)
  | base64Error (e : DecodeError)
  | gltfError (e : GltfError)
  | imageLoadingFailed (name : List Char) (e : ImageError)
  | unknownImageFormat (mime : List Char) (image : Nat)
  | binSectionNotFound
  | requiredMeshPropertyMissing (property : List Char) (mesh : Nat) (primitive : Nat)
  | unknownBufferIndex (i : Nat)
  | bufferRangeOutOfBounds (buffer : Nat) (start : Nat) (stop : Nat)
  | unknownImageIndex (i : Nat)
  | unknownMaterialIndex (i : Nat)
  | unknownNodeIndex (i : Nat)
  | unknownMeshIndex (i : Nat)
  | unknownTextureIndex (i : Nat)
  | unknownSkinIndex (i : Nat)
  | nodeIndexOutOfRange (i : Nat)
  | unreachable
deriving DecidableEq

/-- GPU allocator state: each created texture or mesh storage gets a
fresh id, standing for the identity of the `wgpu` resource / `Rc`. -/
structure Gfx : Type where
  nextId : Nat
deriving DecidableEq

/-- Mirror of `graphics::Texture`: an `Rc<wgpu::Texture>` (its identity,
as `textureId`), width and height.  The struct has no further fields:
in particular it records no sampler, wrap mode or filter settings. -/
structure Texture : Type where
  textureId : Nat
  width : Nat
  height : Nat
deriving DecidableEq

/-- Mirror of `graphics::Material`. -/
structure Material : Type where
  normal : Option Texture
  diffuse : Option Texture
  baseDiffuseColor : ℚ × ℚ × ℚ × ℚ
deriving DecidableEq

/-- Mirror of `graphics::Vertex`. -/
structure Vertex : Type where
  position : ℚ × ℚ × ℚ × ℚ
  normal : ℚ × ℚ × ℚ
  texCoord : ℚ × ℚ
deriving DecidableEq

/-- Mirror of `graphics::MeshStorage`: the contents written into the
vertex and index `wgpu::Buffer`s. -/
structure MeshStorage : Type where
  vertex : List Vertex
  index : List Nat
deriving DecidableEq

/-- Mirror of `graphics::Mesh`: `inner` is an `Rc<MeshStorage>`, whose
identity is `storageId`. -/
structure Mesh : Type where
  storageId : Nat
  inner : MeshStorage
  indexCount : Nat
  material : Material
deriving DecidableEq

/-- Mirror of `GraphicsContext::create_texture`: allocates a GPU texture
(fresh id), uploads `texels`, and returns a `Texture` record holding
only the resource handle, width and height.  No sampler is created and
the `format`/`texels` are retained only GPU-side. -/
def createTexture (g : Gfx) (texels : List Nat) (width height : Nat)
    (format : TexFormat) : Texture × Gfx :=
  let _ := texels
  let _ := format
  (⟨g.nextId, width, height⟩, ⟨g.nextId + 1⟩)

/-- Mirror of `GraphicsContext::create_mesh`. -/
def createMesh (g : Gfx) (vertices : List Vertex) (indices : List Nat)
    (material : Material) : Mesh × Gfx :=
  (⟨g.nextId, ⟨vertices, indices⟩, indices.length, material⟩, ⟨g.nextId + 1⟩)

/-- Mirror of `ayude::Skin` (src/lib.rs). -/
structure Skin : Type where
  joints : List Nat
  skeleton : Option Nat
deriving DecidableEq

/-- Mirror of `ayude::Node` (src/lib.rs); ids are `u16` in the source,
kept as `Nat` here (the importer only ever produces values below
65536, via `map_node_to_u16_index`). -/
structure Node : Type where
  parent : Option Nat
  children : List Nat
  transform : Mat4
  meshes : List Mesh
  skin : Option Skin
deriving DecidableEq

/-- Mirror of `ayude::Scene` (src/lib.rs). -/
structure Scene : Type where
  nodes : List Node
  rootNodes : List Nat
  transform : Mat4
deriving DecidableEq

/-- Sampler wrap modes of the source document (`gltf::texture::WrappingMode`). -/
inductive WrapMode : Type
  | clampToEdge
  | mirroredRepeat
  | repeatWrap
deriving DecidableEq

/-- Minification filters of the source document (`gltf::texture::MinFilter`). -/
inductive FilterMin : Type
  | nearest
  | linear
  | nearestMipmapNearest
  | linearMipmapNearest
  | nearestMipmapLinear
  | linearMipmapLinear
deriving DecidableEq

/-- Magnification filters of the source document (`gltf::texture::MagFilter`). -/
inductive FilterMag : Type
  | nearest
  | linear
deriving DecidableEq

/-- Sampler settings as the `gltf` crate exposes them: wrap modes always
present (the crate substitutes the glTF default `Repeat`), filters
optional. -/
structure GSampler : Type where
  wrapS : WrapMode
  wrapT : WrapMode
  minFilter : Option FilterMin
  magFilter : Option FilterMag
deriving DecidableEq

/-- The glTF defaults: repeat wrapping, no declared filters. -/
def GSampler.default : GSampler := ⟨.repeatWrap, .repeatWrap, none, none⟩

/-- A `gltf::Texture` accessor object: its document index, the index of
its source image, and its sampler settings. -/
structure GTextureObj : Type where
  index : Nat
  source : Nat
  sampler : GSampler
deriving DecidableEq

/-- A `gltf::Material` accessor object (`index` is `none` for the glTF
default material). -/
structure GMaterialObj : Type where
  index : Option Nat
  normalTexture : Option GTextureObj
  baseColorTexture : Option GTextureObj
  baseColorFactor : ℚ × ℚ × ℚ × ℚ
deriving DecidableEq

/-- A `gltf::Primitive` accessor object: the optional attribute arrays
the reader can deliver (already converted: tex coords `into_f32`,
indices `into_u32`), and the primitive's material object. -/
structure GPrimObj : Type where
  index : Nat
  positions : Option (List (ℚ × ℚ × ℚ))
  normals : Option (List (ℚ × ℚ × ℚ))
  texCoords : Option (List (ℚ × ℚ))
  indices : Option (List Nat)
  material : GMaterialObj
deriving DecidableEq

/-- A `gltf::Mesh` accessor object. -/
structure GMeshObj : Type where
  index : Nat
  primitives : List GPrimObj
deriving DecidableEq

/-- A `gltf::Skin` accessor object: joint node indices and the optional
skeleton-root node index. -/
structure GSkinObj : Type where
  joints : List Nat
  skeleton : Option Nat
deriving DecidableEq

/-- A `gltf::Node` accessor object: child node indices, the node's local
transform matrix (`node.transform().matrix()`, with TRS composition done
by the crate), and optional mesh and skin. -/
structure GNodeObj : Type where
  children : List Nat
  matrix : Mat4
  mesh : Option GMeshObj
  skin : Option GSkinObj
deriving DecidableEq

/-- A `gltf::buffer::Source`. -/
inductive GBufferSource : Type
  | bin
  | uri (u : List Char)
deriving DecidableEq

/-- A `gltf::image::Source`. -/
inductive GImageSource : Type
  | uri (u : List Char) (mimeType : Option (List Char))
  | view (buffer : Nat) (offset : Nat) (length : Nat) (mimeType : List Char)
deriving DecidableEq

/-- A `gltf::Image` accessor object. -/
structure GImageObj : Type where
  index : Nat
  source : GImageSource
deriving DecidableEq

/-- A `gltf::Scene` accessor object: the indices of its root nodes. -/
structure GSceneObj : Type where
  roots : List Nat
deriving DecidableEq

/-- The parts of a `gltf::Document` the importer reads. -/
structure GDoc : Type where
  nodes : List GNodeObj
  defaultScene : Option GSceneObj
  buffers : List GBufferSource
  images : List GImageObj
  textureCount : Nat
  materialCount : Nat
  meshCount : Nat
deriving DecidableEq

/-- A parsed `gltf::Gltf` value: optional binary blob plus document. -/
structure GltfFile : Type where
  blob : Option (List Nat)
  document : GDoc
deriving DecidableEq

/-- The image decoder's output (`image::RgbaImage` after `into_rgba8`). -/
structure RgbaImage : Type where
  data : List Nat
  width : Nat
  height : Nat
deriving DecidableEq

/-- The two image formats the importer accepts. -/
inductive ImageFormat : Type
  | jpeg
  | png
deriving DecidableEq

/-- External collaborators: the filesystem (`std::fs::read`) and the
`image` crate decoder (`load_from_memory_with_format` followed by
`into_rgba8`). -/
structure Ext : Type where
  fsRead : List Char → Except IOErr (List Nat)
  loadImage : List Nat → ImageFormat → Except ImageError RgbaImage

/-- Mirror of the `Importer` struct state (src/import_gltf.rs), with the
GPU allocator folded in as `gfx`. -/
structure Importer : Type where
  basePath : List Char
  blob : Option (List Nat)
  buffers : List (List Nat)
  images : List (List Nat × Nat × Nat × TexFormat)
  textures : List (Option Texture)
  materials : List (Option Material)
  meshes : List (Option (List Mesh))
  gfx : Gfx
deriving DecidableEq

/-- String constants used by the importer. -/
def dataPrefix : List Char := "data:".data

def mimePng : List Char := "image/png".data

def mimeJpeg : List Char := "image/jpeg".data

def mimeOctetStream : List Char := "application/octet-stream".data

def extPng : List Char := ".png".data

def extJpg : List Char := ".jpg".data

def extJpeg : List Char := ".jpeg".data

def strPositions : List Char := "positions".data

def strNormals : List Char := "normals".data

def strUvs : List Char := "uvs".data

def strIndices : List Char := "indices".data

/-- Mirror of `data_uri_to_bytes_and_type` (src/import_gltf.rs:480-484):

```text
let bytes = base64::decode(&uri[uri.find(",").unwrap_or(0) + 1..])?;
let mt = &uri[uri.find(":").unwrap() + 1..uri.find(";").unwrap()];
Ok((bytes, mt))
```

`none` models the panics: `find(":").unwrap()` or `find(";").unwrap()`
on a string lacking the character, or an inverted slice range. -/
def dataUriToBytesAndType (uri : List Char) :
    Option (Except DecodeError (List Nat × List Char)) :=
  match base64decode (uri.drop ((strFind uri ',').getD 0 + 1)) with
  | .error e => some (.error e)
  | .ok bytes =>
    match strFind uri ':' with
    | none => none
    | some ci =>
      match strFind uri ';' with
      | none => none
      | some si =>
        if ci + 1 ≤ si ∧ si ≤ uri.length then
          some (.ok (bytes, (uri.drop (ci + 1)).take (si - (ci + 1))))
        else none

/-- The payload slice `data_uri_to_bytes_and_type` feeds to
`base64::decode`: everything after the first comma (or after the first
character when there is no comma). -/
def dataPayload (uri : List Char) : List Char :=
  uri.drop ((strFind uri ',').getD 0 + 1)

/-- Mirror of `Importer::import_gltf_buffer`: embedded blob (`take`n from
the importer, failing with `BinSectionNotFound` when absent), inline
`data:` payload, or a filesystem read relative to `base_path`. -/
def importGltfBuffer (ext : Ext) (st : Importer) (buffer : GBufferSource) :
    Option (Except ImportGltfError (List Nat) × Importer) :=
  match buffer with
  | .bin =>
    match st.blob with
    | some b => some (.ok b, { st with blob := none })
    | none => some (.error .binSectionNotFound, { st with blob := none })
  | .uri u =>
    if dataPrefix.isPrefixOf u then
      match dataUriToBytesAndType u with
      | none => none
      | some (.error e) => some (.error (.base64Error e), st)
      | some (.ok (bytes, _)) => some (.ok bytes, st)
    else
      match ext.fsRead (st.basePath ++ '/' :: u) with
      | .error e => some (.error (.ioError e), st)
      | .ok bytes => some (.ok bytes, st)

/-- Mime type inferred from a file extension, as in
`Importer::import_gltf_image`. -/
def mimeFromExtension (u : List Char) : List Char :=
  if extPng.isSuffixOf u then mimePng
  else if extJpg.isSuffixOf u ∨ extJpeg.isSuffixOf u then mimeJpeg
  else mimeOctetStream

/-- Shared tail of `Importer::import_gltf_image`: pick the codec from the
mime type and decode, normalising to rgba bytes. -/
def decodeImagePayload (ext : Ext) (imageIndex : Nat) (data : List Nat)
    (mime : List Char) :
    Option (Except ImportGltfError (List Nat × Nat × Nat × TexFormat)) :=
  let format : Except ImportGltfError ImageFormat :=
    if mime = mimeJpeg then .ok .jpeg
    else if mime = mimePng then .ok .png
    else .error (.unknownImageFormat mime imageIndex)
  match format with
  | .error e => some (.error e)
  | .ok fmt =>
    match ext.loadImage data fmt with
    | .error e => some (.error (.imageLoadingFailed (Nat.toDigits 10 imageIndex) e))
    | .ok img => some (.ok (img.data, img.width, img.height, .rgba8Uint))

/-- Mirror of `Importer::import_gltf_image` (read-only in the importer
state): resolve the image bytes from a data uri, a file, or a range of a
resolved buffer, then decode. -/
def importGltfImage (ext : Ext) (st : Importer) (image : GImageObj) :
    Option (Except ImportGltfError (List Nat × Nat × Nat × TexFormat)) :=
  match image.source with
  | .uri u mt =>
    if dataPrefix.isPrefixOf u then
      match dataUriToBytesAndType u with
      | none => none
      | some (.error e) => some (.error (.base64Error e))
      | some (.ok (d, parsedMt)) =>
        decodeImagePayload ext image.index d (mt.getD parsedMt)
    else
      match ext.fsRead (st.basePath ++ '/' :: u) with
      | .error e => some (.error (.ioError e))
      | .ok d => decodeImagePayload ext image.index d (mt.getD (mimeFromExtension u))
  | .view bufferIndex offset length mt =>
    match st.buffers.get? bufferIndex with
    | none => some (.error (.unknownBufferIndex bufferIndex))
    | some buf =>
      if offset + length ≤ buf.length then
        decodeImagePayload ext image.index ((buf.drop offset).take length) mt
      else some (.error (.bufferRangeOutOfBounds bufferIndex offset (offset + length)))

/-- Mirror of `Importer::import_gltf_texture` (src/import_gltf.rs:263-314):
consult the `textures` cache; on a miss, look up the decoded image and
build a GPU texture.  Exactly as in the source, the freshly built
texture is returned but never stored back into `st.textures`, and the
`sampler` accessor is read into a dead local (its handling is commented
out behind a `todo!` note), so `t.sampler` never influences the result. -/
def importGltfTexture (st : Importer) (t : GTextureObj) :
    Except ImportGltfError (Texture × Importer) :=
  match st.textures.get? t.index with
  | none => .error (.unknownTextureIndex t.index)
  | some (some tex) => .ok (tex, st)
  | some none =>
    match st.images.get? t.source with
    | none => .error (.unknownImageIndex t.source)
    | some (data, width, height, format) =>
      let (tex, gfx1) := createTexture st.gfx data width height format
      .ok (tex, { st with gfx := gfx1 })

/-- Mirror of `Importer::import_gltf_material` (src/import_gltf.rs:316-348):
consult the `materials` cache when the material has a document index
(the default material has none); on a miss, import the optional normal
and diffuse textures and assemble the record.  As in the source, the
built material is never stored back into `st.materials`. -/
def importGltfMaterial (st : Importer) (m : GMaterialObj) :
    Except ImportGltfError (Material × Importer) :=
  let cached : Except ImportGltfError (Option Material) :=
    match m.index with
    | some i =>
      match st.materials.get? i with
      | none => .error (.unknownMaterialIndex i)
      | some c => .ok c
    | none => .ok none
  match cached with
  | .error e => .error e
  | .ok (some mat) => .ok (mat, st)
  | .ok none =>
    let normalRes : Except ImportGltfError (Option Texture × Importer) :=
      match m.normalTexture with
      | some info =>
        match importGltfTexture st info with
        | .error e => .error e
        | .ok (tex, st1) => .ok (some tex, st1)
      | none => .ok (none, st)
    match normalRes with
    | .error e => .error e
    | .ok (normal, st1) =>
      let diffuseRes : Except ImportGltfError (Option Texture × Importer) :=
        match m.baseColorTexture with
        | some info =>
          match importGltfTexture st1 info with
          | .error e => .error e
          | .ok (tex, st2) => .ok (some tex, st2)
        | none => .ok (none, st1)
      match diffuseRes with
      | .error e => .error e
      | .ok (diffuse, st2) =>
        .ok (⟨normal, diffuse, m.baseColorFactor⟩, st2)

/-- The vertex-assembly loop of `Importer::import_gltf_mesh`: one
`Vertex` per position (`[x, y, z, 1.0]`), pulling the next normal and
texture coordinate with `.next().unwrap()` — `none` models the panic
when the normal or uv iterator runs out before the positions do. -/
def buildVertices : List (ℚ × ℚ × ℚ) → List (ℚ × ℚ × ℚ) → List (ℚ × ℚ) →
    Option (List Vertex)
  | [], _, _ => some []
  | p :: ps, n :: ns, t :: ts =>
    (buildVertices ps ns ts).map
      (fun vs => ⟨(p.1, p.2.1, p.2.2, 1), n, t⟩ :: vs)
  | _ :: _, [], _ => none
  | _ :: _, _ :: _, [] => none

/-- The per-primitive body of `Importer::import_gltf_mesh`, folded over
the primitive list in order: read the four attribute arrays (failing
with `RequiredMeshPropertyMissing` on the first absent one, in source
order positions → normals → uvs, then the vertex loop, then indices),
truncate each index with `as u16` (that is, modulo 2^16 — the source
marks this line `TODO! this sucks`), import the primitive's material,
and create the GPU mesh. -/
def importPrimitives (meshIndex : Nat) (st : Importer) :
    List GPrimObj → Option (Except ImportGltfError (List Mesh) × Importer)
  | [] => some (.ok [], st)
  | p :: rest =>
    match p.positions with
    | none => some (.error (.requiredMeshPropertyMissing strPositions meshIndex p.index), st)
    | some ps =>
    match p.normals with
    | none => some (.error (.requiredMeshPropertyMissing strNormals meshIndex p.index), st)
    | some ns =>
    match p.texCoords with
    | none => some (.error (.requiredMeshPropertyMissing strUvs meshIndex p.index), st)
    | some ts =>
    match buildVertices ps ns ts with
    | none => none
    | some vertices =>
    match p.indices with
    | none => some (.error (.requiredMeshPropertyMissing strIndices meshIndex p.index), st)
    | some rawIndices =>
    let indices := rawIndices.map (fun it => it % 65536)
    match importGltfMaterial st p.material with
    | .error e => some (.error e, st)
    | .ok (material, st1) =>
      let (mesh, gfx2) := createMesh st1.gfx vertices indices material
      match importPrimitives meshIndex { st1 with gfx := gfx2 } rest with
      | none => none
      | some (.error e, st3) => some (.error e, st3)
      | some (.ok ms, st3) => some (.ok (mesh :: ms), st3)

/-- Mirror of `Importer::import_gltf_mesh` (src/import_gltf.rs:350-418):
consult the `meshes` cache, then process each primitive.  As in the
source, the built primitive list is never stored back into
`st.meshes`. -/
def importGltfMesh (st : Importer) (mesh : GMeshObj) :
    Option (Except ImportGltfError (List Mesh) × Importer) :=
  match st.meshes.get? mesh.index with
  | none => some (.error (.unknownMeshIndex mesh.index), st)
  | some (some m) => some (.ok m, st)
  | some none => importPrimitives mesh.index st mesh.primitives

/-- Mirror of `map_node_to_u16_index`: a node index fits in `u16` or
the import fails with `NodeIndexOutOfRange`. -/
def mapNodeToU16Index (i : Nat) : Except ImportGltfError Nat :=
  if i < 65536 then .ok i else .error (.nodeIndexOutOfRange i)

/-- The skin-resolution block of `Importer::import_default_scene`: map
joint indices and the optional skeleton index through
`map_node_to_u16_index`. -/
def importNodeSkin (skin : GSkinObj) : Except ImportGltfError Skin :=
  match mapExcept mapNodeToU16Index skin.joints with
  | .error e => .error e
  | .ok joints =>
    match skin.skeleton with
    | some s =>
      match mapNodeToU16Index s with
      | .error e => .error e
      | .ok sk => .ok ⟨joints, some sk⟩
    | none => .ok ⟨joints, none⟩

/-- The work-list loop of `Importer::import_default_scene`
(src/import_gltf.rs:101-151).  The stack is a Rust `Vec` popped from the
end; it is modelled with the list head as the stack top, so pushing the
children `[c1, …, ck]` prepends them reversed.  Each iteration pops an
entry `(index, parent)`, fetches the node object (the `gltf` crate
guarantees child indices are valid; an out-of-range index is modelled as
`none`), maps the index to `u16`, pushes the children tagged with this
node as parent, builds the child id list, imports meshes and skin, and
appends the record.  `fuel` bounds the iteration count: for documents
whose reachable node graph is a forest the loop runs at most once per
document node, so the `nodes.length + 1` budget passed by the caller is
never exhausted; `none` from exhaustion models the source looping
forever on cyclic inputs. -/
def popLoop (g : GDoc) : Nat → List (Nat × Option Nat) → List (Nat × Node) →
    Importer → Option (Except ImportGltfError (List (Nat × Node)) × Importer)
  | _, [], acc, st => some (.ok acc, st)
  | 0, _ :: _, _, _ => none
  | fuel + 1, (idx, par) :: rest, acc, st =>
    match g.nodes.get? idx with
    | none => none
    | some nobj =>
      match mapNodeToU16Index idx with
      | .error e => some (.error e, st)
      | .ok nodeIndex =>
        let stack1 := (nobj.children.map (fun c => (c, some nodeIndex))).reverse ++ rest
        match mapExcept mapNodeToU16Index nobj.children with
        | .error e => some (.error e, st)
        | .ok children =>
          let meshRes : Option (Except ImportGltfError (List Mesh) × Importer) :=
            match nobj.mesh with
            | some m => importGltfMesh st m
            | none => some (.ok [], st)
          match meshRes with
          | none => none
          | some (.error e, st1) => some (.error e, st1)
          | some (.ok meshes, st1) =>
            let skinRes : Except ImportGltfError (Option Skin) :=
              match nobj.skin with
              | some sk =>
                match importNodeSkin sk with
                | .error e => .error e
                | .ok s => .ok (some s)
              | none => .ok none
            match skinRes with
            | .error e => some (.error e, st1)
            | .ok skin =>
              popLoop g fuel stack1
                ((nodeIndex, ⟨par, children, nobj.matrix, meshes, skin⟩) :: acc) st1

/-- Ordering on keyed records used to model
`sort_unstable_by(|a, b| a.0.cmp(&b.0))`. -/
def keyLE {α : Type} (a b : Nat × α) : Prop := a.1 ≤ b.1

instance {α : Type} : DecidableRel (α := Nat × α) keyLE :=
  fun a b => inferInstanceAs (Decidable (a.1 ≤ b.1))

instance {α : Type} : IsTotal (Nat × α) keyLE :=
  ⟨fun a b => Nat.le_total a.1 b.1⟩

instance {α : Type} : IsTrans (Nat × α) keyLE :=
  ⟨fun _ _ _ h1 h2 => Nat.le_trans h1 h2⟩

/-- The buffer pre-import loop of `Importer::import_default_scene`:
each resolved buffer is pushed onto `st.buffers`. -/
def importBuffersLoop (ext : Ext) (st : Importer) :
    List GBufferSource → Option (Except ImportGltfError Unit × Importer)
  | [] => some (.ok (), st)
  | b :: rest =>
    match importGltfBuffer ext st b with
    | none => none
    | some (.error e, st1) => some (.error e, st1)
    | some (.ok bytes, st1) =>
      importBuffersLoop ext { st1 with buffers := st1.buffers ++ [bytes] } rest

/-- The image pre-import loop of `Importer::import_default_scene`:
each decoded image is pushed onto `st.images`. -/
def importImagesLoop (ext : Ext) (st : Importer) :
    List GImageObj → Option (Except ImportGltfError Unit × Importer)
  | [] => some (.ok (), st)
  | i :: rest =>
    match importGltfImage ext st i with
    | none => none
    | some (.error e) => some (.error e, st)
    | some (.ok img) =>
      importImagesLoop ext { st with images := st.images ++ [img] } rest

/-- Mirror of `Importer::import_default_scene` (src/import_gltf.rs:75-169):
`expect` the default scene (`none` models the panic when the document
has none), pre-import buffers and images, map the root indices to `u16`,
run the traversal, sort the records by source index
(`sort_unstable_by` on the key; keys are distinct whenever the document
is a tree, making the unstable sort deterministic), drop the keys, and
assemble the `Scene` with the identity root transform. -/
def importDefaultSceneInner (ext : Ext) (g : GDoc) (st : Importer) :
    Option (Except ImportGltfError Scene × Importer) :=
  match g.defaultScene with
  | none => none
  | some scn =>
    match importBuffersLoop ext st g.buffers with
    | none => none
    | some (.error e, st1) => some (.error e, st1)
    | some (.ok _, st1) =>
      match importImagesLoop ext st1 g.images with
      | none => none
      | some (.error e, st2) => some (.error e, st2)
      | some (.ok _, st2) =>
        match mapExcept mapNodeToU16Index scn.roots with
        | .error e => some (.error e, st2)
        | .ok rootNodes =>
          let stack0 := (scn.roots.map (fun r => (r, (none : Option Nat)))).reverse
          match popLoop g (g.nodes.length + 1) stack0 [] st2 with
          | none => none
          | some (.error e, st3) => some (.error e, st3)
          | some (.ok recs, st3) =>
            let sorted := List.insertionSort keyLE recs.reverse
            some (.ok ⟨sorted.map (fun r => r.2), rootNodes, Mat4.identity⟩, st3)

/-- Mirror of the free function `import_default_scene`
(src/import_gltf.rs:44-59): `opened` is the (external) result of
`gltf::Gltf::open`, propagated with `?`; then
`file_name[0..file_name.rfind("/").unwrap()]` computes the base path —
`none` models the panic when the file name contains no `/` — the
the importer state starts with empty caches sized by the document's
texture/material/mesh counts, and the inner import runs. -/
def importDefault (ext : Ext) (fileName : List Char)
    (opened : Except GltfError GltfFile) :
    Option (Except ImportGltfError Scene) :=
  match opened with
  | .error e => some (.error (.gltfError e))
  | .ok gl =>
    match strRfind fileName '/' with
    | none => none
    | some k =>
      let st : Importer :=
        { basePath := fileName.take k
          blob := gl.blob
          buffers := []
          images := []
          textures := List.replicate gl.document.textureCount none
          materials := List.replicate gl.document.materialCount none
          meshes := List.replicate gl.document.meshCount none
          gfx := ⟨0⟩ }
      match importDefaultSceneInner ext gl.document st with
      | none => none
      | some (.error e, _) => some (.error e)
      | some (.ok sc, _) => some (.ok sc)

/-- The ancestor-walk loop shared verbatim by
`WackyRenderer::render_scene` (src/bin/ayude.rs:223-235),
`GraphicsContext::render_scene` (src/graphics/mod.rs:254-266) and the
joint walk in `World::render` (src/bin/ayude.rs:181-189):

```text
let mut transform = node.transform.mat4().clone();
let mut current = node;
loop {
    current = match current.parent {
        Some(index) => &scene.nodes[usize::from(index)],
        None => break,
    };
    transform = transform.mul_mat4(current.transform.mat4());
}
```

`none` models a panic on an out-of-bounds parent index or (via fuel
exhaustion) the source looping forever on a cyclic parent chain; the
callers pass `sc.nodes.length` fuel, enough for any acyclic chain. -/
def worldLoop (sc : Scene) : Nat → Node → Mat4 → Option Mat4
  | 0, cur, t =>
    match cur.parent with
    | none => some t
    | some _ => none
  | fuel + 1, cur, t =>
    match cur.parent with
    | none => some t
    | some i =>
      match sc.nodes.get? i with
      | none => none
      | some p => worldLoop sc fuel p (Mat4.mul t p.transform)

/-- The resolved world transform of the node stored at id `i`: its local
transform folded against every ancestor's local transform, closest
ancestor first. -/
def nodeWorld (sc : Scene) (i : Nat) : Option Mat4 :=
  match sc.nodes.get? i with
  | none => none
  | some n => worldLoop sc sc.nodes.length n n.transform

/-- The per-node model matrix computed by both `render_scene`
implementations: the ancestor-walk result multiplied by the Scene's root
transform (`model = mesh_transform * base_transform`). -/
def renderModelMatrix (sc : Scene) (n : Node) : Option Mat4 :=
  match worldLoop sc sc.nodes.length n n.transform with
  | none => none
  | some w => some (Mat4.mul w sc.transform)

/-- The skeleton transform picked by `World::render`
(src/bin/ayude.rs:171-176): the *local* transform of the declared
skeleton node (`scene.nodes[usize::from(skeleton)].transform`), or the
Scene's root transform when no skeleton is declared.  `none` models the
panic on an out-of-bounds skeleton index. -/
def skeletonTransform (sc : Scene) (sk : Skin) : Option Mat4 :=
  match sk.skeleton with
  | some s =>
    match sc.nodes.get? s with
    | none => none
    | some n => some n.transform
  | none => some sc.transform

/-- The joint placement matrix computed by `World::render`
(src/bin/ayude.rs:178-192): look up the joint node (panic on an invalid
id), walk its ancestor chain, and compose with the skeleton transform
(`transform.mul_mat4(skeleton_transform.mat4())`).  The source then
additionally scales by 0.25 to size the debug sphere
(`* Mat4::from_scale(...)`); that marker scale is not part of the
placement composition. -/
def jointPlacement (sc : Scene) (sk : Skin) (j : Nat) : Option Mat4 :=
  match sc.nodes.get? j with
  | none => none
  | some jn =>
    match skeletonTransform sc sk with
    | none => none
    | some skt =>
      match worldLoop sc sc.nodes.length jn jn.transform with
      | none => none
      | some w => some (Mat4.mul w skt)

/-- Formalisation of the spec sentence (§4.5, claim C5), for refinement
comparison with `jointPlacement`: "a joint's effective placement matrix
is: the joint's resolved world transform, composed with the resolved
world transform of the skin's skeleton-root node if one is declared, or
the Scene's own root transform otherwise." -/
def specJointPlacement (sc : Scene) (sk : Skin) (j : Nat) : Option Mat4 :=
  match nodeWorld sc j with
  | none => none
  | some jw =>
    match sk.skeleton with
    | some s =>
      match nodeWorld sc s with
      | none => none
      | some sw => some (Mat4.mul jw sw)
    | none => some (Mat4.mul jw sc.transform)

/-- An explicit ancestor chain in a scene: `isChain sc n anc` says the
parent pointers from `n` pass exactly through the nodes of `anc` in
order, ending at a parentless root. -/
def isChain (sc : Scene) : Node → List Node → Prop
  | n, [] => n.parent = none
  | n, p :: rest => ∃ i, n.parent = some i ∧ sc.nodes.get? i = some p ∧ isChain sc p rest

/-! ### Concrete inputs used by the witnesses and counterexamples -/

/-- External collaborators that always fail: none of the concrete runs
below touch the filesystem or the image decoder. -/
def extFail : Ext := ⟨fun _ => .error .mk, fun _ _ => .error .mk⟩

/-- Importer state after pre-importing one 7x5 image, for a document
with one texture and two materials (all caches empty, as initialised). -/
def stTex : Importer :=
  { basePath := [], blob := none, buffers := [], images := [([], 7, 5, .rgba8Uint)],
    textures := [none], materials := [none, none], meshes := [], gfx := ⟨0⟩ }

/-- Texture 0 of that document, sourcing image 0, default sampler. -/
def texObj0 : GTextureObj := ⟨0, 0, GSampler.default⟩

/-- Material 0: base-color texture is texture 0. -/
def matObjA : GMaterialObj := ⟨some 0, none, some texObj0, (1, 1, 1, 1)⟩

/-- Material 1: base-color texture is also texture 0. -/
def matObjB : GMaterialObj := ⟨some 1, none, some texObj0, (1, 1, 1, 1)⟩

/-- The glTF default material object (no document index, no textures). -/
def defaultMatObj : GMaterialObj := ⟨none, none, none, (1, 1, 1, 1)⟩

/-- Importer state for a document with a single mesh and no textures. -/
def stMesh : Importer :=
  { basePath := [], blob := none, buffers := [], images := [],
    textures := [], materials := [], meshes := [none], gfx := ⟨0⟩ }

/-- A complete one-vertex primitive whose index array holds the values
`[65536, 1, 70000]` — two of them above the 16-bit limit. -/
def primBigIndices : GPrimObj :=
  ⟨0, some [(0, 0, 0)], some [(0, 0, 1)], some [(0, 0)], some [65536, 1, 70000], defaultMatObj⟩

/-- Mesh 0 of that document. -/
def meshBigIndices : GMeshObj := ⟨0, [primBigIndices]⟩

/-- An empty importer state (document with no buffers, images, textures,
materials or meshes). -/
def st0Empty : Importer :=
  { basePath := [], blob := none, buffers := [], images := [],
    textures := [], materials := [], meshes := [], gfx := ⟨0⟩ }

/-- Marker transform `diag(2, 2, 2, 1)`. -/
def matDiag2 : Mat4 := Mat4.diag 2 2 2 1

/-- Marker transform `diag(3, 3, 3, 1)`. -/
def matDiag3 : Mat4 := Mat4.diag 3 3 3 1

/-- Marker transform `diag(5, 5, 5, 1)`. -/
def matDiag5 : Mat4 := Mat4.diag 5 5 5 1

/-- Marker transform `diag(7, 7, 7, 1)`. -/
def matDiag7 : Mat4 := Mat4.diag 7 7 7 1

/-- A two-node document whose default scene references only node 1:
node 0 (transform `diag 2`) is never visited. -/
def cexDoc4 : GDoc :=
  ⟨[⟨[], matDiag2, none, none⟩, ⟨[], matDiag3, none, none⟩], some ⟨[1]⟩, [], [], 0, 0, 0⟩

/-- The scene the importer builds from `cexDoc4`: a single node record —
the one built from source node 1 — sitting at position 0. -/
def cexScene4 : Scene := ⟨[⟨none, [], matDiag3, [], none⟩], [1], Mat4.identity⟩

/-- A two-node document: root node 0 (child list `[1]`) and node 1. -/
def witDoc6 : GDoc :=
  ⟨[⟨[1], matDiag2, none, none⟩, ⟨[], matDiag3, none, none⟩], some ⟨[0]⟩, [], [], 0, 0, 0⟩

/-- The scene built from `witDoc6`. -/
def witScene6 : Scene :=
  ⟨[⟨none, [1], matDiag2, [], none⟩, ⟨some 0, [], matDiag3, [], none⟩], [0], Mat4.identity⟩

/-- A scene with a skeleton-root node (id 1) that has a parent (id 0)
with a non-identity transform, and a parentless joint node (id 2). -/
def cexScene5 : Scene :=
  ⟨[⟨none, [1], matDiag2, [], none⟩,
    ⟨some 0, [], Mat4.identity, [], none⟩,
    ⟨none, [], Mat4.identity, [], none⟩], [0], Mat4.identity⟩

/-- A skin with joint 2 and declared skeleton-root 1. -/
def cexSkin5 : Skin := ⟨[2], some 1⟩

/-- A trivial parsed glTF file whose document declares no default
scene. -/
def glTriv : GltfFile := ⟨none, ⟨[], none, [], [], 0, 0, 0⟩⟩

/-! ### Claim theorems -/

/-- C1: the per-import caches are consulted before construction but the
freshly built resource is never stored back, so a texture referenced by
two distinct materials is built twice: importing material 0 and then
material 1 — both referencing texture 0 — yields two diffuse textures
with distinct GPU identities (ids 0 and 1), the allocation counter ends
at 2, and the texture cache still holds `[none]` after both imports.
This refutes "the already-built resource is returned (identity
equality), built exactly once per import". -/
theorem c1_texture_built_twice_cache_never_populated :
    importGltfMaterial stTex matObjA =
      .ok (⟨none, some ⟨0, 7, 5⟩, (1, 1, 1, 1)⟩, { stTex with gfx := ⟨1⟩ }) ∧
    importGltfMaterial { stTex with gfx := ⟨1⟩ } matObjB =
      .ok (⟨none, some ⟨1, 7, 5⟩, (1, 1, 1, 1)⟩, { stTex with gfx := ⟨2⟩ }) ∧
    (⟨0, 7, 5⟩ : Texture) ≠ ⟨1, 7, 5⟩ ∧
    ({ stTex with gfx := ⟨2⟩ } : Importer).textures = [none] := by
  refine ⟨rfl, rfl, ?_, rfl⟩
  decide

/-- C2: mesh construction does not reject index values above 65535 —
the primitive with index array `[65536, 1, 70000]` imports successfully
and the stored index buffer is `[0, 1, 4464]`: each value is silently
truncated modulo 2^16 (`as u16`), and no `IndexCapacityExceeded`-style
error exists or is raised. -/
theorem c2_large_indices_silently_truncated :
    primBigIndices.indices = some [65536, 1, 70000] ∧
    importGltfMesh stMesh meshBigIndices =
      some (.ok [⟨0, ⟨[⟨(0, 0, 0, 1), (0, 0, 1), (0, 0)⟩], [0, 1, 4464]⟩, 3,
                  ⟨none, none, (1, 1, 1, 1)⟩⟩],
            { stMesh with gfx := ⟨1⟩ }) := by
  exact ⟨rfl, rfl⟩

/-- C9: the sampler settings of a texture source never reach the built
resource: importing texture 0 with the default sampler (wrap repeat,
no filters) and with entirely different sampler settings produces the
same `Texture` value — a record holding only the GPU handle, width and
height, with no sampling configuration at all. -/
theorem c9_sampler_settings_ignored :
    importGltfTexture stTex ⟨0, 0, GSampler.default⟩ =
      .ok (⟨0, 7, 5⟩, { stTex with gfx := ⟨1⟩ }) ∧
    importGltfTexture stTex ⟨0, 0, ⟨.clampToEdge, .mirroredRepeat, some .nearest, some .nearest⟩⟩ =
      .ok (⟨0, 7, 5⟩, { stTex with gfx := ⟨1⟩ }) := by
  exact ⟨rfl, rfl⟩

/-- C10: `import_default_scene` panics on a file name without a `/`
(the `rfind("/").unwrap()`) and on a document with no default scene (the
`expect`), instead of returning an `ImportGltfError`. -/
theorem c10_import_entry_panics :
    importDefault extFail ("scene.gltf".data) (.ok glTriv) = none ∧
    importDefault extFail ("a/b.gltf".data) (.ok glTriv) = none := by
  exact ⟨rfl, rfl⟩

/-- C4 counterexample: for the accepted two-node document whose default
scene reaches only source node 1, the import succeeds and the record
built from source index 1 (recognisable by its transform `diag 3`) sits
at position 0, while position 1 of the Scene's node sequence does not
exist — so the node array is not index-addressable by source id. -/
theorem c4_counterexample_unreachable_node_shifts_positions :
    importDefaultSceneInner extFail cexDoc4 st0Empty = some (.ok cexScene4, st0Empty) ∧
    cexDoc4.nodes.get? 1 = some ⟨[], matDiag3, none, none⟩ ∧
    cexScene4.nodes.get? 0 = some ⟨none, [], matDiag3, [], none⟩ ∧
    cexScene4.nodes.get? 1 = none ∧
    matDiag3 ≠ matDiag2 := by
  refine ⟨rfl, rfl, rfl, rfl, ?_⟩
  decide

/-- C5 counterexample: with skeleton-root node 1 whose parent (node 0)
carries a non-identity transform, the placement computed by
`World::render` for joint 2 differs from the spec's formula (joint world
transform composed with the skeleton-root's *world* transform): the code
composes with the skeleton-root's *local* transform instead.  Both
computations are defined at this input. -/
theorem c5_counterexample_skeleton_local_not_world :
    jointPlacement cexScene5 cexSkin5 2 ≠ specJointPlacement cexScene5 cexSkin5 2 ∧
    (jointPlacement cexScene5 cexSkin5 2).isSome = true ∧
    (specJointPlacement cexScene5 cexSkin5 2).isSome = true := by
  refine ⟨?_, rfl, rfl⟩
  have h1 : jointPlacement cexScene5 cexSkin5 2 =
      some (Mat4.mul Mat4.identity Mat4.identity) := rfl
  have h2 : specJointPlacement cexScene5 cexSkin5 2 =
      some (Mat4.mul Mat4.identity (Mat4.mul Mat4.identity matDiag2)) := rfl
  rw [h1, h2]
  intro h
  have h3 := congrFun (congrFun (Option.some.inj h) 0) 0
  simp [Mat4.mul, Mat4.identity, matDiag2, Mat4.diag] at h3

/-- The ancestor walk with enough fuel computes the left fold of the
chain's local transforms onto the starting transform. -/
theorem worldLoop_of_chain (sc : Scene) :
    ∀ (anc : List Node) (n : Node) (t : Mat4) (f : Nat),
      isChain sc n anc → anc.length ≤ f →
      worldLoop sc f n t = some (anc.foldl (fun a p => Mat4.mul a p.transform) t) := by
  intro anc
  induction anc with
  | nil =>
    intro n t f h _
    cases f with
    | zero =>
      simp only [worldLoop, isChain] at h ⊢
      rw [h]
      rfl
    | succ f =>
      simp only [worldLoop, isChain] at h ⊢
      rw [h]
      rfl
  | cons p rest ih =>
    intro n t f h hf
    obtain ⟨i, hpar, hget, hchain⟩ := h
    cases f with
    | zero => simp at hf
    | succ f =>
      simp only [worldLoop]
      rw [hpar]
      show (match sc.nodes.get? i with
            | none => none
            | some p => worldLoop sc f p (Mat4.mul t p.transform)) = _
      rw [hget]
      show worldLoop sc f p (Mat4.mul t p.transform) = _
      rw [ih p (Mat4.mul t p.transform) f hchain (by simpa using hf)]
      rfl

/-- C5 (amended): the joint placement computed by `World::render` equals
the joint's resolved world transform composed with the Scene's root
transform when the skin declares no skeleton-root (as the spec states),
but with the skeleton-root node's *local* transform — not its resolved
world transform — when one is declared. -/
theorem c5_amended_joint_placement (sc : Scene) (sk : Skin) (j : Nat) :
    (sk.skeleton = none → jointPlacement sc sk j = specJointPlacement sc sk j) ∧
    (∀ s ns, sk.skeleton = some s → sc.nodes.get? s = some ns →
      jointPlacement sc sk j =
        Option.map (fun w => Mat4.mul w ns.transform) (nodeWorld sc j)) := by
  constructor
  · intro h
    unfold jointPlacement specJointPlacement skeletonTransform nodeWorld
    rw [h]
    cases hj : sc.nodes.get? j with
    | none => rfl
    | some jn =>
      cases hw : worldLoop sc sc.nodes.length jn jn.transform with
      | none => rfl
      | some w => rfl
  · intro s ns hs hns
    have hsk : skeletonTransform sc sk = some ns.transform := by
      unfold skeletonTransform
      rw [hs]
      show (match sc.nodes.get? s with
            | none => none
            | some n => some n.transform) = _
      rw [hns]
    unfold jointPlacement nodeWorld
    rw [hsk]
    cases hj : sc.nodes.get? j with
    | none => rfl
    | some jn =>
      show (match worldLoop sc sc.nodes.length jn jn.transform with
            | none => none
            | some w => some (Mat4.mul w ns.transform)) =
        Option.map (fun w => Mat4.mul w ns.transform)
          (worldLoop sc sc.nodes.length jn jn.transform)
      cases worldLoop sc sc.nodes.length jn jn.transform with
      | none => rfl
      | some w => rfl

/-- C5 witness: both branches of the amended statement evaluated on
`cexScene5` — once with no declared skeleton, once with skeleton-root 1. -/
theorem c5_amended_joint_placement_witness :
    ((⟨[2], none⟩ : Skin).skeleton = none ∧
      jointPlacement cexScene5 ⟨[2], none⟩ 2 = specJointPlacement cexScene5 ⟨[2], none⟩ 2) ∧
    (cexSkin5.skeleton = some 1 ∧
      cexScene5.nodes.get? 1 = some ⟨some 0, [], Mat4.identity, [], none⟩ ∧
      jointPlacement cexScene5 cexSkin5 2 =
        Option.map (fun w => Mat4.mul w (Mat4.identity))
          (nodeWorld cexScene5 2)) :=
  ⟨⟨rfl, (c5_amended_joint_placement cexScene5 ⟨[2], none⟩ 2).1 rfl⟩,
   ⟨rfl, rfl,
    (c5_amended_joint_placement cexScene5 cexSkin5 2).2 1
      ⟨some 0, [], Mat4.identity, [], none⟩ rfl rfl⟩⟩

/-- C3: for a node with an explicit ancestor chain, the model matrix
computed by `render_scene` (both implementations) is the product of the
node's local transform with each ancestor's local transform in
child-to-root order — closest ancestor applied first, root rightmost —
with the Scene's root transform applied last (rightmost). -/
theorem c3_world_transform_chain (sc : Scene) (i : Nat) (n : Node) (anc : List Node)
    (_hn : sc.nodes.get? i = some n)
    (hchain : isChain sc n anc)
    (hlen : anc.length ≤ sc.nodes.length) :
    renderModelMatrix sc n =
      some (Mat4.mul (anc.foldl (fun a p => Mat4.mul a p.transform) n.transform)
        sc.transform) := by
  unfold renderModelMatrix
  rw [worldLoop_of_chain sc anc n n.transform sc.nodes.length hchain hlen]

/-- A three-level chain scene: root A (`diag 2`) → B (`diag 3`) →
C (`diag 5`), with Scene root transform `diag 7`. -/
def witScene3 : Scene :=
  ⟨[⟨none, [1], matDiag2, [], none⟩,
    ⟨some 0, [2], matDiag3, [], none⟩,
    ⟨some 1, [], matDiag5, [], none⟩], [0], matDiag7⟩

/-- C3 witness: on the concrete chain A → B → C the computed model
matrix is `C_local × B_local × A_local × root_transform` (left to
right, each factor applied in that concatenation order). -/
theorem c3_world_transform_chain_witness :
    witScene3.nodes.get? 2 = some ⟨some 1, [], matDiag5, [], none⟩ ∧
    isChain witScene3 ⟨some 1, [], matDiag5, [], none⟩
      [⟨some 0, [2], matDiag3, [], none⟩, ⟨none, [1], matDiag2, [], none⟩] ∧
    ([⟨some 0, [2], matDiag3, [], none⟩, ⟨none, [1], matDiag2, [], none⟩] : List Node).length ≤
      witScene3.nodes.length ∧
    renderModelMatrix witScene3 ⟨some 1, [], matDiag5, [], none⟩ =
      some (Mat4.mul (Mat4.mul (Mat4.mul matDiag5 matDiag3) matDiag2) matDiag7) :=
  ⟨rfl, ⟨1, rfl, rfl, ⟨0, rfl, rfl, rfl⟩⟩, by decide,
   c3_world_transform_chain witScene3 2 ⟨some 1, [], matDiag5, [], none⟩
     [⟨some 0, [2], matDiag3, [], none⟩, ⟨none, [1], matDiag2, [], none⟩]
     rfl ⟨1, rfl, rfl, ⟨0, rfl, rfl, rfl⟩⟩ (by decide)⟩

/-- A successful `strFind` returns an in-bounds index holding the
character. -/
theorem strFind_some (s : List Char) (c : Char) :
    ∀ i, strFind s c = some i → i < s.length ∧ s.get? i = some c := by
  induction s with
  | nil => intro i h; simp [strFind] at h
  | cons a rest ih =>
    intro i h
    by_cases hac : a = c
    · subst hac
      simp [strFind] at h
      subst h
      simp
    · simp [strFind, hac] at h
      obtain ⟨j, hj, rfl⟩ := h
      obtain ⟨hlt, hget⟩ := ih j hj
      refine ⟨by simpa using Nat.succ_lt_succ hlt, ?_⟩
      simpa using hget

/-- `strFind` succeeds on any string containing the character. -/
theorem strFind_isSome_of_mem (s : List Char) (c : Char) :
    c ∈ s → ∃ i, strFind s c = some i := by
  induction s with
  | nil => intro h; simp at h
  | cons a rest ih =>
    intro h
    by_cases hac : a = c
    · exact ⟨0, by simp [strFind, hac]⟩
    · have hmem : c ∈ rest := by
        rcases List.mem_cons.mp h with h1 | h1
        · exact absurd h1.symm hac
        · exact h1
      obtain ⟨j, hj⟩ := ih hmem
      exact ⟨j + 1, by simp [strFind, hac, hj]⟩

/-- C7 (amended): for a reference string starting with `data:` that
contains a `;`, `data_uri_to_bytes_and_type` never panics: it returns
the decoded base64 bytes of the payload after the first comma, or the
payload's decode error (surfaced by the caller as the base64
encoding error).  (The counterexample shows the `;` proviso is necessary:
without it the function panics on the `find(";").unwrap()`.) -/
theorem c7_amended_no_panic_with_semicolon (uri : List Char)
    (h1 : dataPrefix.isPrefixOf uri = true) (h2 : ';' ∈ uri) :
    ∃ r, dataUriToBytesAndType uri = some r ∧
      ((∃ e, r = .error e ∧ base64decode (dataPayload uri) = .error e) ∨
       (∃ bs mt, r = .ok (bs, mt) ∧ base64decode (dataPayload uri) = .ok bs)) := by
  obtain ⟨t, ht⟩ := List.isPrefixOf_iff_prefix.mp h1
  subst ht
  unfold dataUriToBytesAndType
  cases hb : base64decode ((dataPrefix ++ t).drop ((strFind (dataPrefix ++ t) ',').getD 0 + 1)) with
  | error e =>
    refine ⟨.error e, rfl, .inl ⟨e, rfl, ?_⟩⟩
    unfold dataPayload
    exact hb
  | ok bytes =>
    have hcolon : strFind (dataPrefix ++ t) ':' = some 4 := rfl
    obtain ⟨si, hsi⟩ := strFind_isSome_of_mem (dataPrefix ++ t) ';' h2
    obtain ⟨hsilt, hsiget⟩ := strFind_some (dataPrefix ++ t) ';' si hsi
    have hsi5 : 5 ≤ si := by
      by_contra hlt
      push_neg at hlt
      have hpre : (dataPrefix ++ t).get? si = dataPrefix.get? si := by
        rw [List.get?_eq_getElem?, List.get?_eq_getElem?,
          List.getElem?_append_left (show si < dataPrefix.length from hlt)]
      rw [hpre] at hsiget
      interval_cases si <;> exact absurd hsiget (by decide)
    refine ⟨.ok (bytes, ((dataPrefix ++ t).drop (4 + 1)).take (si - (4 + 1))), ?_, ?_⟩
    · show (match strFind (dataPrefix ++ t) ':' with
            | none => none
            | some ci =>
              match strFind (dataPrefix ++ t) ';' with
              | none => none
              | some si2 =>
                if ci + 1 ≤ si2 ∧ si2 ≤ (dataPrefix ++ t).length then
                  some (Except.ok (bytes, ((dataPrefix ++ t).drop (ci + 1)).take (si2 - (ci + 1))))
                else none) = _
      rw [hcolon]
      show (match strFind (dataPrefix ++ t) ';' with
            | none => none
            | some si2 =>
              if 4 + 1 ≤ si2 ∧ si2 ≤ (dataPrefix ++ t).length then
                some (Except.ok (bytes, ((dataPrefix ++ t).drop (4 + 1)).take (si2 - (4 + 1))))
              else none) = _
      rw [hsi]
      show (if 4 + 1 ≤ si ∧ si ≤ (dataPrefix ++ t).length then
              some (Except.ok (bytes, ((dataPrefix ++ t).drop (4 + 1)).take (si - (4 + 1))))
            else none) = _
      rw [if_pos ⟨by omega, Nat.le_of_lt hsilt⟩]
    · refine .inr ⟨bytes, _, rfl, ?_⟩
      unfold dataPayload
      exact hb

/-- C7 counterexample: `"data:,QUJD"` starts with `data:` and carries a
validly-decoding payload, yet the resolver panics (the
`find(";").unwrap()` fails) instead of returning bytes or an
`EncodingError`. -/
theorem c7_counterexample_panics_without_semicolon :
    dataUriToBytesAndType ("data:,QUJD".data) = none ∧
    dataPrefix.isPrefixOf ("data:,QUJD".data) = true ∧
    base64decode (dataPayload ("data:,QUJD".data)) = .ok [65, 66, 67] :=
  ⟨rfl, rfl, rfl⟩

/-- C7 witness: the amended statement applied to a canonical inline
reference string. -/
theorem c7_amended_no_panic_witness :
    dataPrefix.isPrefixOf ("data:image/png;base64,QQ==".data) = true ∧
    ';' ∈ "data:image/png;base64,QQ==".data ∧
    (∃ r, dataUriToBytesAndType ("data:image/png;base64,QQ==".data) = some r ∧
      ((∃ e, r = .error e ∧
          base64decode (dataPayload ("data:image/png;base64,QQ==".data)) = .error e) ∨
       (∃ bs mt, r = .ok (bs, mt) ∧
          base64decode (dataPayload ("data:image/png;base64,QQ==".data)) = .ok bs))) :=
  ⟨rfl, by decide,
   c7_amended_no_panic_with_semicolon ("data:image/png;base64,QQ==".data) rfl (by decide)⟩

/-- The vertex loop succeeds whenever the normal and uv arrays are at
least as long as the position array. -/
theorem buildVertices_isSome :
    ∀ (ps ns : List (ℚ × ℚ × ℚ)) (ts : List (ℚ × ℚ)),
      ps.length ≤ ns.length → ps.length ≤ ts.length →
      ∃ vs, buildVertices ps ns ts = some vs := by
  intro ps
  induction ps with
  | nil => intro ns ts _ _; exact ⟨[], rfl⟩
  | cons p ps ih =>
    intro ns ts h1 h2
    cases ns with
    | nil => simp at h1
    | cons n ns =>
      cases ts with
      | nil => simp at h2
      | cons t ts =>
        obtain ⟨vs, hvs⟩ := ih ns ts (by simpa using h1) (by simpa using h2)
        exact ⟨⟨(p.1, p.2.1, p.2.2, 1), n, t⟩ :: vs, by simp [buildVertices, hvs]⟩

/-- A primitive missing one of its four required arrays makes the
primitive fold fail with `RequiredMeshPropertyMissing` naming a missing
attribute, leaving the importer state untouched. -/
theorem importPrimitives_head_missing (mi : Nat) (st : Importer) (p : GPrimObj)
    (post : List GPrimObj)
    (hmiss : p.positions = none ∨ p.normals = none ∨ p.texCoords = none ∨ p.indices = none)
    (hlen1 : ∀ ps ns, p.positions = some ps → p.normals = some ns → ps.length ≤ ns.length)
    (hlen2 : ∀ ps ts, p.positions = some ps → p.texCoords = some ts → ps.length ≤ ts.length) :
    ∃ name, importPrimitives mi st (p :: post) =
        some (.error (.requiredMeshPropertyMissing name mi p.index), st) ∧
      ((name = strPositions ∧ p.positions = none) ∨
       (name = strNormals ∧ p.normals = none) ∨
       (name = strUvs ∧ p.texCoords = none) ∨
       (name = strIndices ∧ p.indices = none)) := by
  cases hpos : p.positions with
  | none => exact ⟨strPositions, by simp [importPrimitives, hpos], .inl ⟨rfl, rfl⟩⟩
  | some ps =>
    cases hnor : p.normals with
    | none => exact ⟨strNormals, by simp [importPrimitives, hpos, hnor], .inr (.inl ⟨rfl, rfl⟩)⟩
    | some ns =>
      cases htex : p.texCoords with
      | none =>
        exact ⟨strUvs, by simp [importPrimitives, hpos, hnor, htex],
          .inr (.inr (.inl ⟨rfl, rfl⟩))⟩
      | some ts =>
        have hidx : p.indices = none := by
          rcases hmiss with h | h | h | h
          · rw [hpos] at h; cases h
          · rw [hnor] at h; cases h
          · rw [htex] at h; cases h
          · exact h
        obtain ⟨vs, hbv⟩ :=
          buildVertices_isSome ps ns ts (hlen1 ps ns hpos hnor) (hlen2 ps ts hpos htex)
        exact ⟨strIndices, by simp [importPrimitives, hpos, hnor, htex, hbv, hidx],
          .inr (.inr (.inr ⟨rfl, hidx⟩))⟩

/-- The primitive fold over an accepted prefix composes: processing
`l1 ++ l2` first yields `l1`'s meshes and state, then continues with
`l2`. -/
theorem importPrimitives_append (mi : Nat) :
    ∀ (l1 : List GPrimObj) (st st1 : Importer) (ms : List Mesh) (l2 : List GPrimObj),
      importPrimitives mi st l1 = some (.ok ms, st1) →
      importPrimitives mi st (l1 ++ l2) =
        (match importPrimitives mi st1 l2 with
         | none => none
         | some (.error e, s) => some (.error e, s)
         | some (.ok ms2, s) => some (.ok (ms ++ ms2), s)) := by
  intro l1
  induction l1 with
  | nil =>
    intro st st1 ms l2 h
    simp only [importPrimitives, Option.some.injEq, Prod.mk.injEq, Except.ok.injEq] at h
    obtain ⟨hms, hst⟩ := h
    subst hst
    subst hms
    simp only [List.nil_append]
    cases hr : importPrimitives mi st l2 with
    | none => rfl
    | some r =>
      obtain ⟨res, s⟩ := r
      cases res with
      | error e => rfl
      | ok ms2 => simp
  | cons p rest ih =>
    intro st st1 ms l2 h
    cases hpos : p.positions with
    | none => simp [importPrimitives, hpos] at h
    | some ps =>
    cases hnor : p.normals with
    | none => simp [importPrimitives, hpos, hnor] at h
    | some ns =>
    cases htex : p.texCoords with
    | none => simp [importPrimitives, hpos, hnor, htex] at h
    | some ts =>
    cases hbv : buildVertices ps ns ts with
    | none => simp [importPrimitives, hpos, hnor, htex, hbv] at h
    | some vs =>
    cases hidx : p.indices with
    | none => simp [importPrimitives, hpos, hnor, htex, hbv, hidx] at h
    | some rawIndices =>
    cases hmat : importGltfMaterial st p.material with
    | error e => simp [importPrimitives, hpos, hnor, htex, hbv, hidx, hmat] at h
    | ok matst =>
      obtain ⟨material, stm⟩ := matst
      rw [show (p :: rest) ++ l2 = p :: (rest ++ l2) from rfl]
      simp only [importPrimitives, hpos, hnor, htex, hbv, hidx, hmat] at h ⊢
      cases hr : importPrimitives mi
          { stm with gfx := (createMesh stm.gfx vs (rawIndices.map (fun it => it % 65536))
              material).2 } rest with
      | none => rw [hr] at h; cases h
      | some r =>
        obtain ⟨res, s⟩ := r
        cases res with
        | error e =>
          rw [hr] at h
          simp at h
        | ok msr =>
          rw [hr] at h
          simp only [Option.some.injEq, Prod.mk.injEq, Except.ok.injEq] at h
          obtain ⟨hms, hst⟩ := h
          subst hst
          subst hms
          rw [ih _ s msr l2 hr]
          cases hr2 : importPrimitives mi s l2 with
          | none => rfl
          | some r2 =>
            obtain ⟨res2, s2⟩ := r2
            cases res2 with
            | error e => rfl
            | ok ms2 => simp

/-- C8: a mesh whose primitive at position `pre.length` lacks any of the
position, normal, texture-coordinate or index arrays fails with
`RequiredMeshPropertyMissing` carrying a missing attribute's name
("positions"/"normals"/"uvs"/"indices" — "uvs" for texture
coordinates), the mesh index and the primitive index, returning an
error rather than crashing.  The earlier primitives are assumed
complete (`hpre`), and — as glTF mandates equal attribute counts — the
arrays of the failing primitive that are present are assumed at least
as long as its position array (`hlen1`, `hlen2`; relevant only when the
index array alone is missing, since the vertex loop runs before the
index read). -/
theorem c8_missing_attribute_fails (st st1 : Importer) (m : GMeshObj) (p : GPrimObj)
    (pre post : List GPrimObj) (ms : List Mesh)
    (hsplit : m.primitives = pre ++ p :: post)
    (hcache : st.meshes.get? m.index = some none)
    (hpidx : p.index = pre.length)
    (hmiss : p.positions = none ∨ p.normals = none ∨ p.texCoords = none ∨ p.indices = none)
    (hlen1 : ∀ ps ns, p.positions = some ps → p.normals = some ns → ps.length ≤ ns.length)
    (hlen2 : ∀ ps ts, p.positions = some ps → p.texCoords = some ts → ps.length ≤ ts.length)
    (hpre : importPrimitives m.index st pre = some (.ok ms, st1)) :
    ∃ name, importGltfMesh st m =
        some (.error (.requiredMeshPropertyMissing name m.index pre.length), st1) ∧
      ((name = strPositions ∧ p.positions = none) ∨
       (name = strNormals ∧ p.normals = none) ∨
       (name = strUvs ∧ p.texCoords = none) ∨
       (name = strIndices ∧ p.indices = none)) := by
  obtain ⟨name, hhead, hdisj⟩ :=
    importPrimitives_head_missing m.index st1 p post hmiss hlen1 hlen2
  refine ⟨name, ?_, hdisj⟩
  unfold importGltfMesh
  rw [hcache]
  show importPrimitives m.index st m.primitives = _
  rw [hsplit, importPrimitives_append m.index pre st st1 ms (p :: post) hpre, hhead]
  show (some (Except.error (ImportGltfError.requiredMeshPropertyMissing name m.index p.index),
      st1) : Option (Except ImportGltfError (List Mesh) × Importer)) = _
  rw [hpidx]

/-- A complete primitive except for its texture coordinates. -/
def witPrimNoUvs : GPrimObj :=
  ⟨0, some [(0, 0, 0)], some [(0, 0, 1)], none, some [0], defaultMatObj⟩

/-- Mesh 0 holding only that primitive. -/
def witMeshNoUvs : GMeshObj := ⟨0, [witPrimNoUvs]⟩

/-- C8 witness: the mesh whose only primitive lacks texture coordinates
fails with `RequiredMeshPropertyMissing("uvs", 0, 0)`. -/
theorem c8_missing_attribute_fails_witness :
    witMeshNoUvs.primitives = [] ++ witPrimNoUvs :: [] ∧
    stMesh.meshes.get? witMeshNoUvs.index = some none ∧
    witPrimNoUvs.index = ([] : List GPrimObj).length ∧
    (witPrimNoUvs.positions = none ∨ witPrimNoUvs.normals = none ∨
      witPrimNoUvs.texCoords = none ∨ witPrimNoUvs.indices = none) ∧
    importPrimitives witMeshNoUvs.index stMesh [] = some (.ok [], stMesh) ∧
    (∃ name, importGltfMesh stMesh witMeshNoUvs =
        some (.error (.requiredMeshPropertyMissing name witMeshNoUvs.index
          ([] : List GPrimObj).length), stMesh) ∧
      ((name = strPositions ∧ witPrimNoUvs.positions = none) ∨
       (name = strNormals ∧ witPrimNoUvs.normals = none) ∨
       (name = strUvs ∧ witPrimNoUvs.texCoords = none) ∨
       (name = strIndices ∧ witPrimNoUvs.indices = none))) :=
  ⟨rfl, rfl, rfl, .inr (.inr (.inl rfl)), rfl,
   c8_missing_attribute_fails stMesh stMesh witMeshNoUvs witPrimNoUvs [] [] []
     rfl rfl rfl (.inr (.inr (.inl rfl)))
     (fun ps ns h1 h2 => by
       injection h1 with h1'
       injection h2 with h2'
       subst h1'
       subst h2'
       decide)
     (fun ps ts _ h2 => by cases h2)
     rfl⟩

/-! ### Correctness of the scene-graph traversal (claims C4 and C6) -/

/-- `map_node_to_u16_index` succeeds exactly on indices below 2^16 and
returns the index unchanged. -/
theorem mapNodeToU16Index_ok (i j : Nat) (h : mapNodeToU16Index i = .ok j) : j = i := by
  by_cases hi : i < 65536
  · simpa [mapNodeToU16Index, hi] using h.symm
  · simp [mapNodeToU16Index, hi] at h

/-- Mapping a whole list through `map_node_to_u16_index` returns the
list unchanged when it succeeds. -/
theorem mapExcept_u16_ok :
    ∀ (l l2 : List Nat), mapExcept mapNodeToU16Index l = .ok l2 → l2 = l := by
  intro l
  induction l with
  | nil => intro l2 h; simpa [mapExcept] using h.symm
  | cons a rest ih =>
    intro l2 h
    cases ha : mapNodeToU16Index a with
    | error e => simp [mapExcept, ha] at h
    | ok b =>
      cases hr : mapExcept mapNodeToU16Index rest with
      | error e => simp [mapExcept, ha, hr] at h
      | ok bs =>
        simp only [mapExcept, ha, hr, Except.ok.injEq] at h
        subst h
        rw [mapNodeToU16Index_ok a b ha, ih bs hr]

/-- An element read off a list of naturals is at most the list's sum. -/
theorem sum_ge_get? (L : List Nat) : ∀ (i x : Nat), L.get? i = some x → x ≤ L.sum := by
  induction L with
  | nil => intro i x h; simp at h
  | cons a rest ih =>
    intro i x h
    cases i with
    | zero =>
      simp only [List.get?] at h
      cases h
      simp
    | succ i =>
      simp only [List.get?] at h
      have := ih i x h
      simp only [List.sum_cons]
      omega

/-- Two elements at distinct positions are jointly at most the sum. -/
theorem sum_ge_two_get? (L : List Nat) :
    ∀ (i j x y : Nat), i ≠ j → L.get? i = some x → L.get? j = some y →
      x + y ≤ L.sum := by
  induction L with
  | nil => intro i j x y _ h; simp at h
  | cons a rest ih =>
    intro i j x y hij hi hj
    cases i with
    | zero =>
      cases j with
      | zero => exact absurd rfl hij
      | succ j =>
        simp only [List.get?] at hi hj
        cases hi
        have := sum_ge_get? rest j y hj
        simp only [List.sum_cons]
        omega
    | succ i =>
      cases j with
      | zero =>
        simp only [List.get?] at hi hj
        cases hj
        have := sum_ge_get? rest i x hi
        simp only [List.sum_cons]
        omega
      | succ j =>
        simp only [List.get?] at hi hj
        have := ih i j x y (by omega) hi hj
        simp only [List.sum_cons]
        omega

/-- The occurrences inside one component bound the occurrences in the
flattened list. -/
theorem count_le_count_flatten (L : List (List Nat)) (i : Nat) (li : List Nat)
    (h : L.get? i = some li) (a : Nat) : li.count a ≤ L.flatten.count a := by
  rw [List.count_flatten]
  exact sum_ge_get? (L.map (List.count a)) i (li.count a)
    (by rw [List.get?_map, h]; rfl)

/-- An element occurring in two distinct components occurs at least
twice in the flattened list. -/
theorem two_le_count_flatten (L : List (List Nat)) (i j : Nat) (li lj : List Nat)
    (hij : i ≠ j) (hi : L.get? i = some li) (hj : L.get? j = some lj) (a : Nat)
    (hai : a ∈ li) (haj : a ∈ lj) : 2 ≤ L.flatten.count a := by
  rw [List.count_flatten]
  have h1 : 1 ≤ li.count a := List.count_pos_iff.mpr hai
  have h2 : 1 ≤ lj.count a := List.count_pos_iff.mpr haj
  have := sum_ge_two_get? (L.map (List.count a)) i j (li.count a) (lj.count a) hij
    (by rw [List.get?_map, hi]; rfl) (by rw [List.get?_map, hj]; rfl)
  omega

instance : IsAntisymm Nat (· < ·) :=
  ⟨fun _ _ h1 h2 => absurd h2 (Nat.lt_asymm h1)⟩

/-- A duplicate-free list of naturals below `n`, of length `n`, is a
permutation of `range n`. -/
theorem ids_perm_range (ids : List Nat) (n : Nat) (hnd : ids.Nodup)
    (hlt : ∀ i ∈ ids, i < n) (hlen : ids.length = n) :
    ids.Perm (List.range n) := by
  apply List.perm_of_nodup_nodup_toFinset_eq hnd (List.nodup_range n)
  have hsub : ids.toFinset ⊆ (List.range n).toFinset := by
    intro x hx
    rw [List.mem_toFinset] at hx
    rw [List.mem_toFinset, List.mem_range]
    exact hlt x hx
  apply Finset.eq_of_subset_of_card_le hsub
  rw [List.toFinset_card_of_nodup hnd, List.toFinset_card_of_nodup (List.nodup_range n)]
  rw [hlen, List.length_range]

/-- What a traversal record promises about its source node: built from
the document node at its own index (children and transform copied), and
its parent field justified either by root membership or by a child link
in the parent's document node. -/
def recProvenance (g : GDoc) (roots : List Nat) (r : Nat × Node) : Prop :=
  ∃ nobj, g.nodes.get? r.1 = some nobj ∧
    r.2.children = nobj.children ∧
    r.2.transform = nobj.matrix ∧
    (r.2.parent = none → r.1 ∈ roots) ∧
    (∀ q, r.2.parent = some q →
      ∃ pobj, g.nodes.get? q = some pobj ∧ r.1 ∈ pobj.children)

/-- What a pending stack entry promises: a root seed, or a child of the
document node it was pushed from. -/
def entryProvenance (g : GDoc) (roots : List Nat) (e : Nat × Option Nat) : Prop :=
  match e.2 with
  | none => e.1 ∈ roots
  | some q => ∃ pobj, g.nodes.get? q = some pobj ∧ e.1 ∈ pobj.children

/-- Every record the traversal loop emits satisfies `recProvenance`,
provided the pending entries and accumulated records do. -/
theorem popLoop_provenance (g : GDoc) (roots : List Nat) :
    ∀ (fuel : Nat) (stack : List (Nat × Option Nat)) (acc : List (Nat × Node))
      (st : Importer) (out : List (Nat × Node)) (stF : Importer),
      (∀ e ∈ stack, entryProvenance g roots e) →
      (∀ r ∈ acc, recProvenance g roots r) →
      popLoop g fuel stack acc st = some (.ok out, stF) →
      ∀ r ∈ out, recProvenance g roots r := by
  intro fuel
  induction fuel with
  | zero =>
    intro stack acc st out stF _ hacc h
    cases stack with
    | nil =>
      simp only [popLoop, Option.some.injEq, Prod.mk.injEq, Except.ok.injEq] at h
      obtain ⟨hout, _⟩ := h
      subst hout
      exact hacc
    | cons e rest => simp [popLoop] at h
  | succ fuel ih =>
    intro stack acc st out stF hstack hacc h
    cases stack with
    | nil =>
      simp only [popLoop, Option.some.injEq, Prod.mk.injEq, Except.ok.injEq] at h
      obtain ⟨hout, _⟩ := h
      subst hout
      exact hacc
    | cons e rest =>
      obtain ⟨idx, par⟩ := e
      simp only [popLoop] at h
      cases hget : g.nodes.get? idx with
      | none => simp only [hget] at h; cases h
      | some nobj =>
      simp only [hget] at h
      cases hu16 : mapNodeToU16Index idx with
      | error er => simp only [hu16] at h; simp at h
      | ok nodeIndex =>
      simp only [hu16] at h
      have hni : nodeIndex = idx := mapNodeToU16Index_ok idx nodeIndex hu16
      subst hni
      cases hch : mapExcept mapNodeToU16Index nobj.children with
      | error er => simp only [hch] at h; simp at h
      | ok children =>
      simp only [hch] at h
      have hch' : children = nobj.children := mapExcept_u16_ok nobj.children children hch
      cases hmesh : (match nobj.mesh with
                     | some m => importGltfMesh st m
                     | none => some (.ok [], st)) with
      | none => simp only [hmesh] at h; cases h
      | some mr =>
      simp only [hmesh] at h
      obtain ⟨mres, st1⟩ := mr
      cases mres with
      | error er => simp at h
      | ok meshes =>
      cases hskin : (match nobj.skin with
                     | some sk =>
                       match importNodeSkin sk with
                       | Except.error e => Except.error e
                       | Except.ok s => Except.ok (some s)
                     | none =>
                       Except.ok none : Except ImportGltfError (Option Skin)) with
      | error er => simp only [hskin] at h; simp at h
      | ok skin =>
      simp only [hskin] at h
      refine ih _ _ _ _ _ ?_ ?_ h
      · intro e2 he2
        rcases List.mem_append.mp he2 with h2 | h2
        · rw [List.mem_reverse] at h2
          obtain ⟨c, hc, rfl⟩ := List.mem_map.mp h2
          exact ⟨nobj, hget, hc⟩
        · exact hstack e2 (List.mem_cons_of_mem _ h2)
      · intro r hr
        rcases List.mem_cons.mp hr with h2 | h2
        · subst h2
          refine ⟨nobj, hget, hch', rfl, ?_, ?_⟩
          · intro hp
            have hthis := hstack (nodeIndex, par) (List.mem_cons_self _ _)
            have hp' : par = none := hp
            rw [hp'] at hthis
            exact hthis
          · intro q hq
            have hthis := hstack (nodeIndex, par) (List.mem_cons_self _ _)
            have hq' : par = some q := hq
            rw [hq'] at hthis
            exact hthis
        · exact hacc r h2

/-- Stack-entry invariant for the uniqueness argument: a pending entry
is a root seed, or a child of an already-visited node. -/
def entryParentVisited (g : GDoc) (roots : List Nat) (acc : List (Nat × Node))
    (e : Nat × Option Nat) : Prop :=
  match e.2 with
  | none => e.1 ∈ roots
  | some q => q ∈ acc.map Prod.fst ∧
      ∃ pobj, g.nodes.get? q = some pobj ∧ e.1 ∈ pobj.children

/-- Record invariant for the uniqueness argument: a visited id is a
root, or a child of some already-visited node. -/
def accProvenance (g : GDoc) (roots : List Nat) (acc : List (Nat × Node))
    (r : Nat × Node) : Prop :=
  r.1 ∈ roots ∨
    ∃ q pobj, q ∈ acc.map Prod.fst ∧ g.nodes.get? q = some pobj ∧ r.1 ∈ pobj.children

/-- Freshness at a traversal step: when the document's child lists are
globally duplicate-free and no scene root occurs as a child, the
children of the node being visited are disjoint from every id already
pending or visited (including the node itself). -/
theorem step_fresh (g : GDoc) (roots : List Nat)
    (hrootnc : ∀ r ∈ roots, r ∉ (g.nodes.map (fun n => n.children)).flatten)
    (honce : ((g.nodes.map (fun n => n.children)).flatten).Nodup)
    (idx : Nat) (par : Option Nat) (nobj : GNodeObj)
    (hget : g.nodes.get? idx = some nobj)
    (rest : List (Nat × Option Nat)) (acc : List (Nat × Node))
    (hnd : (idx :: (rest.map Prod.fst ++ acc.map Prod.fst)).Nodup)
    (hentries : ∀ e ∈ (idx, par) :: rest, entryParentVisited g roots acc e)
    (haccp : ∀ r ∈ acc, accProvenance g roots acc r) :
    ∀ c ∈ nobj.children, c ∉ idx :: (rest.map Prod.fst ++ acc.map Prod.fst) := by
  intro c hc hmem
  have hcflat : c ∈ (g.nodes.map (fun n => n.children)).flatten :=
    List.mem_flatten.mpr ⟨nobj.children,
      List.mem_map_of_mem _ (List.get?_mem hget), hc⟩
  have honce' : ∀ a, ((g.nodes.map (fun n => n.children)).flatten).count a ≤ 1 :=
    List.nodup_iff_count_le_one.mp honce
  have hidxnotacc : idx ∉ rest.map Prod.fst ++ acc.map Prod.fst :=
    (List.nodup_cons.mp hnd).1
  have htwo : ∀ q pobj, q ≠ idx → g.nodes.get? q = some pobj →
      c ∈ pobj.children → False := by
    intro q pobj hqi hgq hcq
    have h2 := two_le_count_flatten (g.nodes.map (fun n => n.children)) q idx
      pobj.children nobj.children hqi
      (by rw [List.get?_map, hgq]; rfl) (by rw [List.get?_map, hget]; rfl)
      c hcq hc
    have h1 := honce' c
    omega
  have hcroot : c ∉ roots := fun hr => hrootnc c hr hcflat
  rcases List.mem_cons.mp hmem with hceq | hmem2
  · subst hceq
    have hhead := hentries (c, par) (List.mem_cons_self _ _)
    cases hpar : par with
    | none =>
      rw [hpar] at hhead
      exact hcroot hhead
    | some q =>
      rw [hpar] at hhead
      obtain ⟨hqacc, pobj, hgq, hcq⟩ := hhead
      have hqi : q ≠ c := by
        intro hqeq
        subst hqeq
        exact hidxnotacc (List.mem_append.mpr (.inr hqacc))
      exact htwo q pobj hqi hgq hcq
  · rcases List.mem_append.mp hmem2 with hrest | hacc2
    · obtain ⟨e, he, hfst⟩ := List.mem_map.mp hrest
      obtain ⟨c2, pe⟩ := e
      simp only at hfst
      subst hfst
      have hent := hentries (c2, pe) (List.mem_cons_of_mem _ he)
      cases hpe : pe with
      | none =>
        rw [hpe] at hent
        exact hcroot hent
      | some q =>
        rw [hpe] at hent
        obtain ⟨hqacc, pobj, hgq, hcq⟩ := hent
        have hqi : q ≠ idx := by
          intro hqeq
          subst hqeq
          exact hidxnotacc (List.mem_append.mpr (.inr hqacc))
        exact htwo q pobj hqi hgq hcq
    · obtain ⟨r, hrm, hfst⟩ := List.mem_map.mp hacc2
      have hprov := haccp r hrm
      rcases hprov with hroot | ⟨q, pobj, hqacc, hgq, hcq⟩
      · rw [hfst] at hroot
        exact hcroot hroot
      · rw [hfst] at hcq
        have hqi : q ≠ idx := by
          intro hqeq
          subst hqeq
          exact hidxnotacc (List.mem_append.mpr (.inr hqacc))
        exact htwo q pobj hqi hgq hcq

/-- The ids the traversal emits are duplicate-free, provided the
document's child lists are globally duplicate-free, no root occurs as a
child, and the invariants hold of the starting stack and accumulator. -/
theorem popLoop_nodup (g : GDoc) (roots : List Nat)
    (hrootnc : ∀ r ∈ roots, r ∉ (g.nodes.map (fun n => n.children)).flatten)
    (honce : ((g.nodes.map (fun n => n.children)).flatten).Nodup) :
    ∀ (fuel : Nat) (stack : List (Nat × Option Nat)) (acc : List (Nat × Node))
      (st : Importer) (out : List (Nat × Node)) (stF : Importer),
      (stack.map Prod.fst ++ acc.map Prod.fst).Nodup →
      (∀ e ∈ stack, entryParentVisited g roots acc e) →
      (∀ r ∈ acc, accProvenance g roots acc r) →
      popLoop g fuel stack acc st = some (.ok out, stF) →
      (out.map Prod.fst).Nodup := by
  intro fuel
  induction fuel with
  | zero =>
    intro stack acc st out stF hnd _ _ h
    cases stack with
    | nil =>
      simp only [popLoop, Option.some.injEq, Prod.mk.injEq, Except.ok.injEq] at h
      obtain ⟨hout, _⟩ := h
      subst hout
      simpa using hnd
    | cons e rest => simp [popLoop] at h
  | succ fuel ih =>
    intro stack acc st out stF hnd hentries haccp h
    cases stack with
    | nil =>
      simp only [popLoop, Option.some.injEq, Prod.mk.injEq, Except.ok.injEq] at h
      obtain ⟨hout, _⟩ := h
      subst hout
      simpa using hnd
    | cons e rest =>
      obtain ⟨idx, par⟩ := e
      simp only [popLoop] at h
      cases hget : g.nodes.get? idx with
      | none => simp only [hget] at h; cases h
      | some nobj =>
      simp only [hget] at h
      cases hu16 : mapNodeToU16Index idx with
      | error er => simp only [hu16] at h; simp at h
      | ok nodeIndex =>
      simp only [hu16] at h
      have hni : nodeIndex = idx := mapNodeToU16Index_ok idx nodeIndex hu16
      subst hni
      cases hch : mapExcept mapNodeToU16Index nobj.children with
      | error er => simp only [hch] at h; simp at h
      | ok children =>
      simp only [hch] at h
      cases hmesh : (match nobj.mesh with
                     | some m => importGltfMesh st m
                     | none => some (.ok [], st)) with
      | none => simp only [hmesh] at h; cases h
      | some mr =>
      simp only [hmesh] at h
      obtain ⟨mres, st1⟩ := mr
      cases mres with
      | error er => simp at h
      | ok meshes =>
      cases hskin : (match nobj.skin with
                     | some sk =>
                       match importNodeSkin sk with
                       | Except.error e => Except.error e
                       | Except.ok s => Except.ok (some s)
                     | none =>
                       Except.ok none : Except ImportGltfError (Option Skin)) with
      | error er => simp only [hskin] at h; simp at h
      | ok skin =>
      simp only [hskin] at h
      have hnd0 : (nodeIndex :: (rest.map Prod.fst ++ acc.map Prod.fst)).Nodup := hnd
      have hfresh := step_fresh g roots hrootnc honce nodeIndex par nobj hget rest acc
        hnd0 hentries haccp
      have hchnd : nobj.children.Nodup := by
        rw [List.nodup_iff_count_le_one]
        intro a
        exact le_trans
          (count_le_count_flatten (g.nodes.map (fun n => n.children)) nodeIndex
            nobj.children (by rw [List.get?_map, hget]; rfl) a)
          (List.nodup_iff_count_le_one.mp honce a)
      refine ih _ _ _ _ _ ?_ ?_ ?_ h
      · have hperm :
            (((nobj.children.map (fun c => (c, some nodeIndex))).reverse ++ rest).map Prod.fst ++
              ((nodeIndex, (⟨par, children, nobj.matrix, meshes, skin⟩ : Node)) :: acc).map
                Prod.fst).Perm
            (nobj.children ++ (nodeIndex :: (rest.map Prod.fst ++ acc.map Prod.fst))) := by
          have hmapeq :
              (((nobj.children.map (fun c => (c, some nodeIndex))).reverse ++ rest).map
                Prod.fst) = nobj.children.reverse ++ rest.map Prod.fst := by
            rw [List.map_append, List.map_reverse, List.map_map,
              show (Prod.fst ∘ fun c : Nat => (c, some nodeIndex)) = id from rfl,
              List.map_id]
          rw [hmapeq, List.map_cons, List.append_assoc]
          exact List.Perm.append (List.reverse_perm _) List.perm_middle
        rw [hperm.nodup_iff]
        refine List.Nodup.append hchnd hnd0 ?_
        intro a ha
        exact hfresh a ha
      · intro e2 he2
        rcases List.mem_append.mp he2 with h2 | h2
        · rw [List.mem_reverse] at h2
          obtain ⟨c, hc, rfl⟩ := List.mem_map.mp h2
          show nodeIndex ∈ _ ∧ _
          exact ⟨List.mem_cons_self _ _, nobj, hget, hc⟩
        · have hold := hentries e2 (List.mem_cons_of_mem _ h2)
          obtain ⟨c2, pe⟩ := e2
          cases pe with
          | none => exact hold
          | some q =>
            obtain ⟨hqacc, rest2⟩ := hold
            exact ⟨List.mem_cons_of_mem _ hqacc, rest2⟩
      · intro r hr
        rcases List.mem_cons.mp hr with h2 | h2
        · subst h2
          have hhead := hentries (nodeIndex, par) (List.mem_cons_self _ _)
          cases hpar : par with
          | none =>
            rw [hpar] at hhead
            exact .inl hhead
          | some q =>
            rw [hpar] at hhead
            obtain ⟨hqacc, pobj, hgq, hcq⟩ := hhead
            exact .inr ⟨q, pobj, List.mem_cons_of_mem _ hqacc, hgq, hcq⟩
        · have hold := haccp r h2
          rcases hold with hroot | ⟨q, pobj, hqacc, hgq, hcq⟩
          · exact .inl hroot
          · exact .inr ⟨q, pobj, List.mem_cons_of_mem _ hqacc, hgq, hcq⟩

/-- Every pending entry and accumulated record ends up in the
traversal's successful output. -/
theorem popLoop_complete (g : GDoc) :
    ∀ (fuel : Nat) (stack : List (Nat × Option Nat)) (acc : List (Nat × Node))
      (st : Importer) (out : List (Nat × Node)) (stF : Importer),
      popLoop g fuel stack acc st = some (.ok out, stF) →
      (∀ r ∈ acc, r ∈ out) ∧ (∀ e ∈ stack, e.1 ∈ out.map Prod.fst) := by
  intro fuel
  induction fuel with
  | zero =>
    intro stack acc st out stF h
    cases stack with
    | nil =>
      simp only [popLoop, Option.some.injEq, Prod.mk.injEq, Except.ok.injEq] at h
      obtain ⟨hout, _⟩ := h
      subst hout
      exact ⟨fun r hr => hr, by simp⟩
    | cons e rest => simp [popLoop] at h
  | succ fuel ih =>
    intro stack acc st out stF h
    cases stack with
    | nil =>
      simp only [popLoop, Option.some.injEq, Prod.mk.injEq, Except.ok.injEq] at h
      obtain ⟨hout, _⟩ := h
      subst hout
      exact ⟨fun r hr => hr, by simp⟩
    | cons e rest =>
      obtain ⟨idx, par⟩ := e
      simp only [popLoop] at h
      cases hget : g.nodes.get? idx with
      | none => simp only [hget] at h; cases h
      | some nobj =>
      simp only [hget] at h
      cases hu16 : mapNodeToU16Index idx with
      | error er => simp only [hu16] at h; simp at h
      | ok nodeIndex =>
      simp only [hu16] at h
      have hni : nodeIndex = idx := mapNodeToU16Index_ok idx nodeIndex hu16
      subst hni
      cases hch : mapExcept mapNodeToU16Index nobj.children with
      | error er => simp only [hch] at h; simp at h
      | ok children =>
      simp only [hch] at h
      cases hmesh : (match nobj.mesh with
                     | some m => importGltfMesh st m
                     | none => some (.ok [], st)) with
      | none => simp only [hmesh] at h; cases h
      | some mr =>
      simp only [hmesh] at h
      obtain ⟨mres, st1⟩ := mr
      cases mres with
      | error er => simp at h
      | ok meshes =>
      cases hskin : (match nobj.skin with
                     | some sk =>
                       match importNodeSkin sk with
                       | Except.error e => Except.error e
                       | Except.ok s => Except.ok (some s)
                     | none =>
                       Except.ok none : Except ImportGltfError (Option Skin)) with
      | error er => simp only [hskin] at h; simp at h
      | ok skin =>
      simp only [hskin] at h
      obtain ⟨hacc2, hstack2⟩ := ih _ _ _ _ _ h
      constructor
      · intro r hr
        exact hacc2 r (List.mem_cons_of_mem _ hr)
      · intro e2 he2
        rcases List.mem_cons.mp he2 with h2 | h2
        · subst h2
          have : (nodeIndex, (⟨par, children, nobj.matrix, meshes, skin⟩ : Node)) ∈ out :=
            hacc2 _ (List.mem_cons_self _ _)
          exact List.mem_map_of_mem Prod.fst this
        · exact hstack2 e2 (List.mem_append.mpr (.inr h2))

/-- Sorting keyed records whose keys are a permutation of `range n`
places the record with key `i` at position `i`. -/
theorem sorted_positional {β : Type} (l : List (Nat × β)) (n : Nat)
    (hperm : (l.map Prod.fst).Perm (List.range n)) :
    ∀ i, i < n → ∃ b, (List.insertionSort keyLE l).get? i = some (i, b) ∧ (i, b) ∈ l := by
  have hsp : (List.insertionSort keyLE l).Perm l := List.perm_insertionSort keyLE l
  have hkeysperm : ((List.insertionSort keyLE l).map Prod.fst).Perm (List.range n) :=
    (hsp.map Prod.fst).trans hperm
  have hkeysnd : ((List.insertionSort keyLE l).map Prod.fst).Nodup :=
    hkeysperm.nodup_iff.mpr (List.nodup_range n)
  have hsorted : List.Sorted keyLE (List.insertionSort keyLE l) :=
    List.sorted_insertionSort keyLE l
  have hkeysle : List.Pairwise (· ≤ ·) ((List.insertionSort keyLE l).map Prod.fst) :=
    List.Pairwise.map Prod.fst (fun _ _ h => h) hsorted
  have hkeyslt : List.Pairwise (· < ·) ((List.insertionSort keyLE l).map Prod.fst) := by
    have hand := List.Pairwise.and hkeysle hkeysnd
    exact hand.imp (fun h => Nat.lt_of_le_of_ne h.1 h.2)
  have hkeys : (List.insertionSort keyLE l).map Prod.fst = List.range n :=
    List.eq_of_perm_of_sorted hkeysperm hkeyslt (List.sorted_lt_range n)
  intro i hi
  have hri : (List.range n).get? i = some i := List.get?_range hi
  rw [← hkeys, List.get?_map] at hri
  cases hs : (List.insertionSort keyLE l).get? i with
  | none => rw [hs] at hri; cases hri
  | some pr =>
    rw [hs] at hri
    obtain ⟨k, b⟩ := pr
    have hk : k = i := by simpa using hri
    subst hk
    exact ⟨b, rfl, hsp.mem_iff.mp (List.get?_mem hs)⟩

/-- Master correctness of the scene-graph build: when the document's
child lists are globally duplicate-free, no default-scene root occurs
as a child, the import succeeds, and the resulting Scene has as many
nodes as the document (every node visited), then the Scene's root list
is the document's root list, every root id is in range, and position
`i` of the Scene's node array holds exactly the record built from
source node `i` — children and transform copied from the document, and
the parent field justified by the document's child links. -/
theorem importInner_positional (ext : Ext) (g : GDoc) (st0 stF : Importer)
    (scn : GSceneObj) (sc : Scene)
    (hscene : g.defaultScene = some scn)
    (hndroots : scn.roots.Nodup)
    (hrootnc : ∀ r ∈ scn.roots, r ∉ (g.nodes.map (fun n => n.children)).flatten)
    (honce : ((g.nodes.map (fun n => n.children)).flatten).Nodup)
    (hsucc : importDefaultSceneInner ext g st0 = some (.ok sc, stF))
    (hlen : sc.nodes.length = g.nodes.length) :
    sc.rootNodes = scn.roots ∧
    (∀ r ∈ scn.roots, r < g.nodes.length) ∧
    (∀ i, i < g.nodes.length →
      ∃ nobj nd, g.nodes.get? i = some nobj ∧ sc.nodes.get? i = some nd ∧
        nd.children = nobj.children ∧ nd.transform = nobj.matrix ∧
        (nd.parent = none → i ∈ scn.roots) ∧
        (∀ q, nd.parent = some q →
          ∃ pobj, g.nodes.get? q = some pobj ∧ i ∈ pobj.children)) := by
  unfold importDefaultSceneInner at hsucc
  rw [hscene] at hsucc
  cases hbuf : importBuffersLoop ext st0 g.buffers with
  | none => simp only [hbuf] at hsucc; cases hsucc
  | some br =>
  simp only [hbuf] at hsucc
  obtain ⟨bres, st1⟩ := br
  cases bres with
  | error er => simp at hsucc
  | ok bu =>
  cases himg : importImagesLoop ext st1 g.images with
  | none => simp only [himg] at hsucc; cases hsucc
  | some imr =>
  simp only [himg] at hsucc
  obtain ⟨ires, st2⟩ := imr
  cases ires with
  | error er => simp at hsucc
  | ok iu =>
  cases hroots : mapExcept mapNodeToU16Index scn.roots with
  | error er => simp only [hroots] at hsucc; simp at hsucc
  | ok rootNodes =>
  simp only [hroots] at hsucc
  have hrn : rootNodes = scn.roots := mapExcept_u16_ok scn.roots rootNodes hroots
  subst hrn
  cases hpop : popLoop g (g.nodes.length + 1)
      ((scn.roots.map (fun r => (r, (none : Option Nat)))).reverse) [] st2 with
  | none => simp only [hpop] at hsucc; cases hsucc
  | some pr =>
  simp only [hpop] at hsucc
  obtain ⟨pres, st3⟩ := pr
  cases pres with
  | error er => simp at hsucc
  | ok recs =>
  simp only [Option.some.injEq, Prod.mk.injEq, Except.ok.injEq] at hsucc
  obtain ⟨hsc, hstF⟩ := hsucc
  subst hsc
  have hstackprov : ∀ e ∈ (scn.roots.map (fun r => (r, (none : Option Nat)))).reverse,
      entryProvenance g scn.roots e := by
    intro e he
    rw [List.mem_reverse] at he
    obtain ⟨r, hr, rfl⟩ := List.mem_map.mp he
    exact hr
  have hprov : ∀ r ∈ recs, recProvenance g scn.roots r :=
    popLoop_provenance g scn.roots _ _ _ _ _ _ hstackprov (by simp) hpop
  have hstackids :
      ((scn.roots.map (fun r => (r, (none : Option Nat)))).reverse).map Prod.fst
        = scn.roots.reverse := by
    rw [List.map_reverse, List.map_map,
      show (Prod.fst ∘ fun r : Nat => (r, (none : Option Nat))) = id from rfl,
      List.map_id]
  have hndrecs : (recs.map Prod.fst).Nodup := by
    apply popLoop_nodup g scn.roots hrootnc honce _ _ _ _ _ _ _ _ (by simp) hpop
    · rw [List.map_nil, List.append_nil, hstackids]
      exact List.nodup_reverse.mpr hndroots
    · intro e he
      rw [List.mem_reverse] at he
      obtain ⟨r, hr, rfl⟩ := List.mem_map.mp he
      exact hr
  have hcomplete := popLoop_complete g _ _ _ _ _ _ hpop
  have hreclen : recs.length = g.nodes.length := by
    have hlen2 : ((List.insertionSort keyLE recs.reverse).map (fun r => r.2)).length
        = g.nodes.length := hlen
    rw [List.length_map, List.length_insertionSort, List.length_reverse] at hlen2
    exact hlen2
  have hidbound : ∀ i ∈ recs.map Prod.fst, i < g.nodes.length := by
    intro i hi
    obtain ⟨r, hr, rfl⟩ := List.mem_map.mp hi
    obtain ⟨nobj, hg, _⟩ := hprov r hr
    exact (List.get?_eq_some.mp hg).1
  have hperm : ((recs.reverse).map Prod.fst).Perm (List.range g.nodes.length) := by
    rw [List.map_reverse]
    refine ((recs.map Prod.fst).reverse_perm).trans ?_
    exact ids_perm_range (recs.map Prod.fst) g.nodes.length hndrecs hidbound
      (by rw [List.length_map]; exact hreclen)
  have hrbound : ∀ r ∈ scn.roots, r < g.nodes.length := by
    intro r hr
    apply hidbound
    apply hcomplete.2 (r, none)
    rw [List.mem_reverse]
    exact List.mem_map_of_mem _ hr
  refine ⟨rfl, hrbound, ?_⟩
  intro i hi
  obtain ⟨b, hsg, hmemrev⟩ := sorted_positional recs.reverse g.nodes.length hperm i hi
  have hmem : (i, b) ∈ recs := List.mem_reverse.mp hmemrev
  obtain ⟨nobj, hg, hch, htr, hpnone, hpsome⟩ := hprov (i, b) hmem
  refine ⟨nobj, b, hg, ?_, hch, htr, hpnone, hpsome⟩
  show ((List.insertionSort keyLE recs.reverse).map (fun r => r.2)).get? i = some b
  rw [List.get?_map, hsg]
  rfl

/-- C4 (amended): each visited node is keyed by its position in the
source document's node array and the records are sorted by that key
before entering the Scene; when the traversal visits every document
node exactly once — equivalently, for a well-formed (duplicate-free,
roots-not-children) document, when the Scene's node count equals the
document's — position `i` of the Scene's node sequence holds exactly
the node built from source index `i`, with children and transform
copied from source node `i`.  For documents with unvisited nodes the
positions shift (see the counterexample). -/
theorem c4_nodes_indexed_by_source_when_covering (ext : Ext) (g : GDoc)
    (st0 stF : Importer) (scn : GSceneObj) (sc : Scene)
    (hscene : g.defaultScene = some scn)
    (hndroots : scn.roots.Nodup)
    (hrootnc : ∀ r ∈ scn.roots, r ∉ (g.nodes.map (fun n => n.children)).flatten)
    (honce : ((g.nodes.map (fun n => n.children)).flatten).Nodup)
    (hsucc : importDefaultSceneInner ext g st0 = some (.ok sc, stF))
    (hlen : sc.nodes.length = g.nodes.length) :
    ∀ i, i < g.nodes.length →
      ∃ nobj nd, g.nodes.get? i = some nobj ∧ sc.nodes.get? i = some nd ∧
        nd.children = nobj.children ∧ nd.transform = nobj.matrix := by
  intro i hi
  obtain ⟨_, _, hpos⟩ := importInner_positional ext g st0 stF scn sc hscene hndroots
    hrootnc honce hsucc hlen
  obtain ⟨nobj, nd, hg, hs, hch, htr, _, _⟩ := hpos i hi
  exact ⟨nobj, nd, hg, hs, hch, htr⟩

/-- C4 witness: the two-node document `witDoc6` (root 0 with child 1)
builds with position 0 holding source node 0 and position 1 holding
source node 1. -/
theorem c4_nodes_indexed_by_source_witness :
    witDoc6.defaultScene = some ⟨[0]⟩ ∧
    ([0] : List Nat).Nodup ∧
    (∀ r ∈ ([0] : List Nat), r ∉ (witDoc6.nodes.map (fun n => n.children)).flatten) ∧
    ((witDoc6.nodes.map (fun n => n.children)).flatten).Nodup ∧
    importDefaultSceneInner extFail witDoc6 st0Empty = some (.ok witScene6, st0Empty) ∧
    witScene6.nodes.length = witDoc6.nodes.length ∧
    (∀ i, i < witDoc6.nodes.length →
      ∃ nobj nd, witDoc6.nodes.get? i = some nobj ∧ witScene6.nodes.get? i = some nd ∧
        nd.children = nobj.children ∧ nd.transform = nobj.matrix) :=
  ⟨rfl, by decide, by decide, by decide, rfl, rfl,
   c4_nodes_indexed_by_source_when_covering extFail witDoc6 st0Empty st0Empty
     ⟨[0]⟩ witScene6 rfl (by decide) (by decide) (by decide) rfl rfl⟩

/-- C6 counterexample: a successful import of a well-formed document
need not satisfy the claimed invariant.  `cexDoc4` is valid glTF shape
(duplicate-free child lists, the default scene's root is not a child of
any node) with a node unreachable from the default scene; it imports
successfully, yet the resulting Scene's root id set is `[1]` while the
node sequence holds a single record — root id 1 refers to no node at
all, so "every node id in the Scene's root id set refers to a node
whose parent is absent" fails on an accepted input. -/
theorem c6_counterexample_dangling_root_id :
    importDefaultSceneInner extFail cexDoc4 st0Empty = some (.ok cexScene4, st0Empty) ∧
    cexDoc4.defaultScene = some ⟨[1]⟩ ∧
    ([1] : List Nat).Nodup ∧
    (∀ r ∈ ([1] : List Nat), r ∉ (cexDoc4.nodes.map (fun n => n.children)).flatten) ∧
    ((cexDoc4.nodes.map (fun n => n.children)).flatten).Nodup ∧
    ¬ (∀ r ∈ cexScene4.rootNodes,
        ∃ nr, cexScene4.nodes.get? r = some nr ∧ nr.parent = none) :=
  ⟨rfl, rfl, by decide, by decide, by decide, fun h => by
    obtain ⟨nr, hget, _⟩ := h 1 (by decide)
    have hnone : (none : Option Node) = some nr := hget
    cases hnone⟩

/-- C6 (amended): in a Scene built from a well-formed document
(duplicate-free child lists, scene roots not children of any node) that
the traversal covers completely — the Scene's node count equals the
document's node count, i.e. every document node is reachable from the
default scene — parent/child links are bidirectionally consistent: if
the node at position `b` names `a` as its parent, the node at position
`a` lists `b` among its children exactly once, and every id in the
Scene's root set refers to a node with no parent.  Without the coverage
condition a root id can refer past the compacted node array (see the
counterexample). -/
theorem c6_parent_child_consistency (ext : Ext) (g : GDoc)
    (st0 stF : Importer) (scn : GSceneObj) (sc : Scene)
    (hscene : g.defaultScene = some scn)
    (hndroots : scn.roots.Nodup)
    (hrootnc : ∀ r ∈ scn.roots, r ∉ (g.nodes.map (fun n => n.children)).flatten)
    (honce : ((g.nodes.map (fun n => n.children)).flatten).Nodup)
    (hsucc : importDefaultSceneInner ext g st0 = some (.ok sc, stF))
    (hlen : sc.nodes.length = g.nodes.length) :
    (∀ b nb a, sc.nodes.get? b = some nb → nb.parent = some a →
      ∃ na, sc.nodes.get? a = some na ∧ na.children.count b = 1) ∧
    (∀ r ∈ sc.rootNodes, ∃ nr, sc.nodes.get? r = some nr ∧ nr.parent = none) := by
  obtain ⟨hroots, hrbound, hpos⟩ := importInner_positional ext g st0 stF scn sc hscene
    hndroots hrootnc honce hsucc hlen
  constructor
  · intro b nb a hgb hpar
    have hb : b < g.nodes.length := by
      have := (List.get?_eq_some.mp hgb).1
      omega
    obtain ⟨nobjb, ndb, hgnb, hscb, _, _, _, hpsome⟩ := hpos b hb
    have hndeq : ndb = nb := by
      rw [hgb] at hscb
      exact (Option.some.inj hscb).symm
    subst hndeq
    obtain ⟨pobj, hgp, hbmem⟩ := hpsome a hpar
    have ha : a < g.nodes.length := (List.get?_eq_some.mp hgp).1
    obtain ⟨nobja, nda, hgna, hsca, hcha, _, _, _⟩ := hpos a ha
    have hpeq : nobja = pobj := by
      rw [hgp] at hgna
      exact (Option.some.inj hgna).symm
    refine ⟨nda, hsca, ?_⟩
    rw [hcha, hpeq]
    have hle : pobj.children.count b ≤ 1 :=
      le_trans
        (count_le_count_flatten (g.nodes.map (fun n => n.children)) a pobj.children
          (by rw [List.get?_map, hgp]; rfl) b)
        (List.nodup_iff_count_le_one.mp honce b)
    have hge : 0 < pobj.children.count b := List.count_pos_iff.mpr hbmem
    omega
  · intro r hr
    rw [hroots] at hr
    obtain ⟨nobj, nd, hg, hs, _, _, _, hpsome⟩ := hpos r (hrbound r hr)
    refine ⟨nd, hs, ?_⟩
    cases hp : nd.parent with
    | none => rfl
    | some q =>
      obtain ⟨pobj, hgq, hrmem⟩ := hpsome q hp
      exact absurd
        (List.mem_flatten.mpr
          ⟨pobj.children, List.mem_map_of_mem _ (List.get?_mem hgq), hrmem⟩)
        (hrootnc r hr)

/-- C6 witness: the consistency conclusions evaluated on the concrete
two-node import (`witDoc6` → `witScene6`). -/
theorem c6_parent_child_consistency_witness :
    witDoc6.defaultScene = some ⟨[0]⟩ ∧
    ([0] : List Nat).Nodup ∧
    (∀ r ∈ ([0] : List Nat), r ∉ (witDoc6.nodes.map (fun n => n.children)).flatten) ∧
    ((witDoc6.nodes.map (fun n => n.children)).flatten).Nodup ∧
    importDefaultSceneInner extFail witDoc6 st0Empty = some (.ok witScene6, st0Empty) ∧
    witScene6.nodes.length = witDoc6.nodes.length ∧
    ((∀ b nb a, witScene6.nodes.get? b = some nb → nb.parent = some a →
        ∃ na, witScene6.nodes.get? a = some na ∧ na.children.count b = 1) ∧
      (∀ r ∈ witScene6.rootNodes, ∃ nr, witScene6.nodes.get? r = some nr ∧
        nr.parent = none)) :=
  ⟨rfl, by decide, by decide, by decide, rfl, rfl,
   c6_parent_child_consistency extFail witDoc6 st0Empty st0Empty ⟨[0]⟩ witScene6
     rfl (by decide) (by decide) (by decide) rfl rfl⟩

end Ayude


